import Mathlib

/-!
Verification of the picoHardwareMonitor fan-control and overclocking
control plane against its specification.

The definitions below are a shallow embedding of the Go sources:

* `internal/fan` (Linux controller): curve interpolation
  (`interpolateFanSpeed`), the per-fan curve goroutines
  (`startFanCurve` / `stopFanCurve` / the sampling tick), and
  `SetSettings` / `GetSettings`.
* `internal/gpu` (`gpu_linux.go` / `gpu_windows.go`):
  `setNvidiaOverclockSettings` and the Windows `SetOverclockSettings`,
  parameterised over the outcomes of the external vendor-tool commands.
* `internal/overclock`: `validateSettings` (Linux and Windows variants),
  `SaveProfile`, `GetProfiles`, `SetSettings`, over an explicit model of
  the profile directory.

Go's `int` is modelled by `Int`; Go's `/` on integers truncates toward
zero, which is `Int.tdiv`.  External effects (file contents, vendor-tool
exit status) are passed in as explicit environment values.  Go runtime
faults (index out of range, division by zero) are modelled as explicit
error outcomes.
-/

namespace PicoHWMon

/-! ## Fan data model (internal/fan/fan.go) -/

/-- fan.CurvePoint: a point of a fan curve. -/
structure CurvePoint where
  Temperature : Int
  FanSpeed : Int
deriving DecidableEq, Repr

/-- fan.FanMode is a Go string; the three known values plus any other string. -/
inductive FanMode where
  | auto
  | fixed
  | curve
  | otherMode (s : String)
deriving DecidableEq, Repr

/-- fan.Settings. -/
structure FanSettings where
  Mode : FanMode
  FixedSpeed : Int
  Curve : List CurvePoint
deriving DecidableEq, Repr

/-! ## Interpolation (fan_linux.go, interpolateFanSpeed)

`interpolateFanSpeed` returns `none` where the Go code would fault at
runtime: on an empty curve (it indexes `curve[0]`) and on a division by
zero inside the loop (adjacent points with equal temperatures selected
as the interpolation segment). -/

/-- The linear-interpolation expression of the source:
`curve[i].FanSpeed + (speedRange*tempDiff)/tempRange` with Go's
truncated integer division. -/
def interpFormula (p q : CurvePoint) (temp : Int) : Int :=
  p.FanSpeed + Int.tdiv ((q.FanSpeed - p.FanSpeed) * (temp - p.Temperature))
    (q.Temperature - p.Temperature)

/-- The `for i := 0; i < len(curve)-1; i++` search loop of
`interpolateFanSpeed`: the first adjacent pair with
`curve[i].Temperature <= temp <= curve[i+1].Temperature` is used; if no
pair matches, the loop falls through to `return curve[len(curve)-1].FanSpeed`
(`fallback`). -/
def interpGo (fallback : Int) : List CurvePoint → Int → Option Int
  | p :: q :: rest, temp =>
    if p.Temperature ≤ temp ∧ temp ≤ q.Temperature then
      if q.Temperature - p.Temperature = 0 then none
      else some (interpFormula p q temp)
    else interpGo fallback (q :: rest) temp
  | _, _ => some fallback

/-- fan_linux.go `interpolateFanSpeed`. -/
def interpolateFanSpeed (curve : List CurvePoint) (temp : Int) : Option Int :=
  match curve with
  | [] => none
  | p0 :: rest =>
    if temp ≤ p0.Temperature then some p0.FanSpeed
    else
      let lastP := (p0 :: rest).getLast (List.cons_ne_nil p0 rest)
      if lastP.Temperature ≤ temp then some lastP.FanSpeed
      else interpGo lastP.FanSpeed (p0 :: rest) temp

/-- Adjacent-pairs check that a curve is sorted ascending by temperature. -/
def sortedByTempB : List CurvePoint → Bool
  | p :: q :: rest => decide (p.Temperature ≤ q.Temperature) && sortedByTempB (q :: rest)
  | _ => true

/-- A curve sorted ascending by temperature. -/
def SortedByTemp (curve : List CurvePoint) : Prop :=
  sortedByTempB curve = true

instance (curve : List CurvePoint) : Decidable (SortedByTemp curve) :=
  inferInstanceAs (Decidable (_ = true))

/-- The per-point bounds `SetSettings` validates: temperature and fan
speed both within 0..100. -/
def pointInBounds (p : CurvePoint) : Prop :=
  0 ≤ p.Temperature ∧ p.Temperature ≤ 100 ∧ 0 ≤ p.FanSpeed ∧ p.FanSpeed ≤ 100

instance (p : CurvePoint) : Decidable (pointInBounds p) :=
  inferInstanceAs (Decidable (_ ∧ _ ∧ _ ∧ _))

/-! ## Linux fan controller state machine (fan_linux.go)

The controller owns `curveStates: map[int]*curveState`; each entry's
goroutine holds the same `*curveState`.  We model every goroutine ever
started as a `CurveLoop` record identified by `lid`, and the map as an
association list from fan ID to `lid`.  `isActive` is the Go field of
that name; `stopClosed` models the closed `stopChannel`.  Hardware
writes (`ioutil.WriteFile` on `pwmN` / `pwmN_enable`) are recorded in a
trace.  `checkWritePermissions` only probes the control files for
writability and writes nothing; we model the probe as succeeding. -/

/-- One curve goroutine together with its shared `curveState` record.
`stopClosed` models the closed `stopChannel`; `returned` records that
the goroutine has observed the close and exited its for-select loop
(closing the channel does not by itself stop a tick already chosen or
in flight). -/
structure CurveLoop where
  lid : Nat
  fanID : Int
  curve : List CurvePoint
  lastTemp : Int
  isActive : Bool
  stopClosed : Bool
  returned : Bool
deriving DecidableEq, Repr

/-- A write to a hwmon control file. -/
inductive HWWrite where
  | enable (fanID : Int) (value : Int)
  | pwm (fanID : Int) (value : Int)
deriving DecidableEq, Repr

/-- Errors of the fan controller; `indexPanic` marks a Go runtime fault
(slice index out of range). -/
inductive FanErr where
  | notFound
  | indexPanic
  | curveTooFewPoints
  | curveTempOutOfRange
  | curveSpeedOutOfRange
  | unsupportedMode
  | pwmReadFailed
  | pwmParseFailed
deriving DecidableEq, Repr

/-- fan.LinuxController: `fanCount = len(pwmPaths)`, the curve-state
map, every goroutine ever started, a fresh-id counter and the hardware
write trace. -/
structure LinuxFanController where
  fanCount : Nat
  curveStates : List (Int × Nat)
  loops : List CurveLoop
  nextLid : Nat
  writes : List HWWrite
deriving DecidableEq, Repr

/-- Go map delete. -/
def mapErase (m : List (Int × Nat)) (k : Int) : List (Int × Nat) :=
  m.filter (fun e => e.1 != k)

/-- Go map assignment (replaces any entry for the key). -/
def mapInsert (m : List (Int × Nat)) (k : Int) (v : Nat) : List (Int × Nat) :=
  mapErase m k ++ [(k, v)]

/-- The loop record a `lid` stands for. -/
def findLoop (c : LinuxFanController) (lid : Nat) : Option CurveLoop :=
  c.loops.find? (fun l => l.lid == lid)

/-- fan_linux.go `stopFanCurve`: if the map holds an active state for
the fan, mark it inactive, close its stop channel and delete the map
entry. -/
def stopFanCurve (c : LinuxFanController) (fanID : Int) : LinuxFanController :=
  match List.lookup fanID c.curveStates with
  | none => c
  | some lid =>
    match findLoop c lid with
    | none => c
    | some l =>
      if l.isActive then
        { c with
          loops := c.loops.map (fun x =>
            if x.lid == lid then { x with isActive := false, stopClosed := true } else x),
          curveStates := mapErase c.curveStates fanID }
      else c

/-- fan_linux.go `startFanCurve`: install a fresh active state in the
map and launch its goroutine. -/
def startFanCurve (c : LinuxFanController) (fanID : Int) (curve : List CurvePoint) :
    LinuxFanController :=
  { c with
    loops := c.loops ++
      [{ lid := c.nextLid, fanID := fanID, curve := curve, lastTemp := 0,
         isActive := true, stopClosed := false, returned := false }],
    curveStates := mapInsert c.curveStates fanID c.nextLid,
    nextLid := c.nextLid + 1 }

/-- Insertion of a point into a temperature-sorted list. -/
def insertByTemp (p : CurvePoint) : List CurvePoint → List CurvePoint
  | [] => [p]
  | q :: rest =>
    if p.Temperature ≤ q.Temperature then p :: q :: rest else q :: insertByTemp p rest

/-- `sort.Slice(sortedCurve, less-by-Temperature)`.  Go's sort is
unstable, guaranteeing only the temperature ordering; insertion sort is
one admissible result (all results agree whenever temperatures are
distinct). -/
def sortCurve : List CurvePoint → List CurvePoint
  | [] => []
  | p :: rest => insertByTemp p (sortCurve rest)

/-- The validation loop over the sorted curve: per point, temperature
range first, fan-speed range second; the first violation aborts. -/
def validateCurvePoints : List CurvePoint → Option FanErr
  | [] => none
  | p :: rest =>
    if p.Temperature < 0 ∨ 100 < p.Temperature then some .curveTempOutOfRange
    else if p.FanSpeed < 0 ∨ 100 < p.FanSpeed then some .curveSpeedOutOfRange
    else validateCurvePoints rest

/-- fan_linux.go `setPWMSpeed` minus the file write: clamp the percent
to 0..100 and scale to the 0..255 PWM range. -/
def pwmOfPercent (speedPercent : Int) : Int :=
  let sp := if speedPercent < 0 then 0 else if 100 < speedPercent then 100 else speedPercent
  Int.tdiv (sp * 255) 100

/-- fan_linux.go `setPWMSpeed`: out-of-range fan IDs yield an error the
curve loop ignores (loops only ever hold valid fan IDs), otherwise the
scaled value is written to the fan's `pwm` file. -/
def setPWMSpeed (c : LinuxFanController) (fanID : Int) (speedPercent : Int) :
    LinuxFanController :=
  if (c.fanCount : Int) ≤ fanID ∨ fanID < 0 then c
  else { c with writes := c.writes ++ [HWWrite.pwm fanID (pwmOfPercent speedPercent)] }

/-- One wake-up of the goroutine with id `lid`, given the temperature
`temp` that `getCurrentTemperature` returns (`0` means unreadable) and
the scheduler's choice `takeStop` for the goroutine's `select`.  A
goroutine that already returned does nothing.  When the stop channel is
closed, that select case is always ready; if `ticker.C` is also ready
Go's select chooses pseudo-randomly, so only `takeStop = true` makes
the goroutine return — with `takeStop = false` a tick that raced the
close (pending or already past the select when `close` ran;
`stopFanCurve` never waits for acknowledgment) still runs its body and
writes.  An open stop channel always runs the body.  A non-positive
temperature skips the tick; otherwise the interpolated speed is
written and `lastTemp` recorded. -/
def tickLoop (c : LinuxFanController) (lid : Nat) (temp : Int) (takeStop : Bool) :
    LinuxFanController :=
  match findLoop c lid with
  | none => c
  | some l =>
    if l.returned then c
    else if l.stopClosed && takeStop then
      { c with loops := c.loops.map (fun x =>
          if x.lid == lid then { x with returned := true } else x) }
    else if 0 < temp then
      match interpolateFanSpeed l.curve temp with
      | none => c
      | some sp =>
        let c1 := setPWMSpeed c l.fanID sp
        { c1 with loops := c1.loops.map (fun x =>
            if x.lid == lid then { x with lastTemp := temp } else x) }
    else c

/-- A sequence of goroutine wake-ups, each
`(lid, (temperature, select-takes-stop))`. -/
def runTicks (c : LinuxFanController) : List (Nat × Int × Bool) → LinuxFanController
  | [] => c
  | t :: ts => runTicks (tickLoop c t.1 t.2.1 t.2.2) ts

/-- fan_linux.go `LinuxController.SetSettings`.  The pair is the
controller state after the call and the error returned (`none` = nil).
The fan-ID guard of the source is only `fanID >= len(c.pwmPaths)`;
a negative ID then faults at `pwmPath := c.pwmPaths[fanID]`. -/
def fanSetSettings (c : LinuxFanController) (fanID : Int) (s : FanSettings) :
    LinuxFanController × Option FanErr :=
  if (c.fanCount : Int) ≤ fanID then (c, some .notFound)
  else if fanID < 0 then (c, some .indexPanic)
  else
    match s.Mode with
    | .fixed =>
      let pwmVal0 := Int.tdiv (s.FixedSpeed * 255) 100
      let pwmVal := if 255 < pwmVal0 then 255 else if pwmVal0 < 0 then 0 else pwmVal0
      ({ c with writes := c.writes ++ [HWWrite.enable fanID 1, HWWrite.pwm fanID pwmVal] },
       none)
    | .auto =>
      ({ c with writes := c.writes ++ [HWWrite.enable fanID 2] }, none)
    | .curve =>
      let c1 := stopFanCurve c fanID
      if s.Curve.length < 2 then (c1, some .curveTooFewPoints)
      else
        let sorted := sortCurve s.Curve
        match validateCurvePoints sorted with
        | some e => (c1, some e)
        | none =>
          let c2 := { c1 with writes := c1.writes ++ [HWWrite.enable fanID 1] }
          (startFanCurve c2 fanID sorted, none)
    | .otherMode _ => (c, some .unsupportedMode)

/-- Contents of the hwmon files `GetSettings` reads back: per fan, the
`pwmN_enable` content (`none` = read error) and the `pwmN` content
(`none` = read error, `some none` = non-numeric). -/
structure HwEnv where
  enableContent : Int → Option String
  pwmContent : Int → Option (Option Int)

/-- The hardware read-back half of `GetSettings` (after the curve-state
check): `pwmPath := c.pwmPaths[fanID]` faults for negative IDs. -/
def fanGetSettingsHw (env : HwEnv) (fanID : Int) : Except FanErr FanSettings :=
  if fanID < 0 then .error .indexPanic
  else
    match env.enableContent fanID with
    | none => .ok { Mode := .auto, FixedSpeed := 0, Curve := [] }
    | some enableVal =>
      match env.pwmContent fanID with
      | none => .error .pwmReadFailed
      | some none => .error .pwmParseFailed
      | some (some pwmVal) =>
        if enableVal = "1" then
          .ok { Mode := .fixed, FixedSpeed := Int.tdiv (pwmVal * 100) 255, Curve := [] }
        else .ok { Mode := .auto, FixedSpeed := 0, Curve := [] }

/-- fan_linux.go `LinuxController.GetSettings`. -/
def fanGetSettings (c : LinuxFanController) (env : HwEnv) (fanID : Int) :
    Except FanErr FanSettings :=
  if (c.fanCount : Int) ≤ fanID then .error .notFound
  else
    match List.lookup fanID c.curveStates with
    | some lid =>
      match findLoop c lid with
      | some l =>
        if l.isActive then .ok { Mode := .curve, FixedSpeed := 0, Curve := l.curve }
        else fanGetSettingsHw env fanID
      | none => fanGetSettingsHw env fanID
    | none => fanGetSettingsHw env fanID

/-- Well-formedness of a controller state, maintained by every
operation from the initial empty state: loop ids are unique and below
the counter, loop fan IDs index `pwmPaths`, the stop channel is closed
exactly on inactive loops, every active loop is the one its fan's map
entry names, every map entry names an active loop of its fan, and map
keys are unique. -/
def FanInv (c : LinuxFanController) : Prop :=
  (∀ l ∈ c.loops, ∀ x ∈ c.loops, l.lid = x.lid → l = x) ∧
  (∀ l ∈ c.loops, l.lid < c.nextLid) ∧
  (∀ l ∈ c.loops, 0 ≤ l.fanID ∧ l.fanID < (c.fanCount : Int)) ∧
  (∀ l ∈ c.loops, l.stopClosed = !l.isActive) ∧
  (∀ l ∈ c.loops, l.isActive = true → List.lookup l.fanID c.curveStates = some l.lid) ∧
  (∀ e ∈ c.curveStates, ∃ l ∈ c.loops, l.lid = e.2 ∧ l.fanID = e.1 ∧ l.isActive = true) ∧
  List.Pairwise (fun a b => a.1 ≠ b.1) c.curveStates

instance (c : LinuxFanController) : Decidable (FanInv c) :=
  inferInstanceAs (Decidable (_ ∧ _ ∧ _ ∧ _ ∧ _ ∧ _ ∧ _))

/-- A hardware write that, if it is a PWM write to fan `f`, carries an
interpolated value of the curve `ca` or of the curve `cb` (at some
temperature). -/
def WriteFromCurves (f : Int) (ca cb : List CurvePoint) (w : HWWrite) : Prop :=
  ∀ v, w = HWWrite.pwm f v →
    (∃ temp sp, interpolateFanSpeed ca temp = some sp ∧ v = pwmOfPercent sp) ∨
    (∃ temp sp, interpolateFanSpeed cb temp = some sp ∧ v = pwmOfPercent sp)

/-! ## GPU overclock application (internal/gpu) -/

/-- gpu.OverclockSettings. -/
structure GpuOCSettings where
  CoreClockOffset : Int
  MemoryClockOffset : Int
  PowerLimit : Int
  FanSpeed : Int
deriving DecidableEq, Repr

/-- gpu.OverclockResult. -/
structure OverclockResult where
  Success : Bool
  Applied : List String
  Warnings : List String
  Errors : List String
deriving DecidableEq, Repr

/-- What one field's block of `setNvidiaOverclockSettings` does to the
result record. -/
inductive FieldOutcome where
  | skip
  | applyOk (msg : String)
  | warn (msg : String)
  | fatal (msg : String)
deriving DecidableEq, Repr

/-- Folding a field's outcome into the result: `Applied` on success,
`Warnings` on a recognised non-fatal failure, `Errors` plus
`Success = false` on a fatal one. -/
def applyField (r : OverclockResult) : FieldOutcome → OverclockResult
  | .skip => r
  | .applyOk m => { r with Applied := r.Applied ++ [m] }
  | .warn m => { r with Warnings := r.Warnings ++ [m] }
  | .fatal m => { r with Errors := r.Errors ++ [m], Success := false }

/-- Outcomes of the external `nvidia-settings` / `nvidia-smi` commands
(the actuation sink) for one `setNvidiaOverclockSettings` call: `none`
is success, `some msg` failure.  For the power limit the Go code
classifies the failure by matching the error text against permission
patterns; `plPermission` records whether the text matched. -/
structure NvidiaEnv where
  deviceOk : Bool
  coreErr : Option String
  memErr : Option String
  plErr : Option String
  plPermission : Bool
  fanErr : Option String

/-- The core-clock-offset block (`if settings.CoreClockOffset != 0`). -/
def coreOutcome (env : NvidiaEnv) (s : GpuOCSettings) : FieldOutcome :=
  if s.CoreClockOffset ≠ 0 then
    match env.coreErr with
    | some e => .fatal ("failed to set core clock offset: " ++ e)
    | none => .applyOk ("core clock offset: " ++ toString s.CoreClockOffset ++ " MHz")
  else .skip

/-- The memory-clock-offset block. -/
def memOutcome (env : NvidiaEnv) (s : GpuOCSettings) : FieldOutcome :=
  if s.MemoryClockOffset ≠ 0 then
    match env.memErr with
    | some e => .fatal ("failed to set memory clock offset: " ++ e)
    | none => .applyOk ("memory clock offset: " ++ toString s.MemoryClockOffset ++ " MHz")
  else .skip

/-- The power-limit block (`if settings.PowerLimit > 0`): failures are
warnings, permission failures with a dedicated message. -/
def plOutcome (env : NvidiaEnv) (s : GpuOCSettings) : FieldOutcome :=
  if 0 < s.PowerLimit then
    match env.plErr with
    | some e =>
      .warn (if env.plPermission then
          "power limit setting requires root privileges (requested: " ++
            toString s.PowerLimit ++ "%)"
        else "failed to set power limit: " ++ e)
    | none => .applyOk ("power limit: " ++ toString s.PowerLimit ++ "%")
  else .skip

/-- The fan-speed block (`if settings.FanSpeed > 0`). -/
def fanOutcome (env : NvidiaEnv) (s : GpuOCSettings) : FieldOutcome :=
  if 0 < s.FanSpeed then
    match env.fanErr with
    | some e => .fatal ("failed to set fan speed: " ++ e)
    | none => .applyOk ("fan speed: " ++ toString s.FanSpeed ++ "%")
  else .skip

/-- A field-applying command issued to the actuation sink (the
`nvidia-settings -a` / `nvidia-smi -pl` invocations; the initial
device-existence probe is a query, not an actuation). -/
inductive SinkCall where
  | coreOffset (v : Int)
  | memOffset (v : Int)
  | powerLimit (v : Int)
  | fanSpeed (v : Int)
deriving DecidableEq, Repr

/-- The sink commands one `setNvidiaOverclockSettings` call issues: one
per configured field, unconditionally of the outcome. -/
def nvidiaCalls (s : GpuOCSettings) : List SinkCall :=
  (if s.CoreClockOffset ≠ 0 then [SinkCall.coreOffset s.CoreClockOffset] else []) ++
  (if s.MemoryClockOffset ≠ 0 then [SinkCall.memOffset s.MemoryClockOffset] else []) ++
  (if 0 < s.PowerLimit then [SinkCall.powerLimit s.PowerLimit] else []) ++
  (if 0 < s.FanSpeed then [SinkCall.fanSpeed s.FanSpeed] else [])

/-- The final `if len(result.Errors) == 0 && len(result.Warnings) > 0`
partial-success adjustment. -/
def finalizePartial (r : OverclockResult) : OverclockResult :=
  if r.Errors = [] ∧ r.Warnings ≠ [] then { r with Success := true } else r

/-- gpu_linux.go `setNvidiaOverclockSettings`: no validation of the
requested values; every configured field is attempted independently and
folded into the result. -/
def setNvidiaOverclockSettings (env : NvidiaEnv) (s : GpuOCSettings) :
    Except String OverclockResult × List SinkCall :=
  if ¬env.deviceOk then (.error "GPU device not found", [])
  else
    let r0 : OverclockResult := { Success := true, Applied := [], Warnings := [], Errors := [] }
    let r := [coreOutcome env s, memOutcome env s, plOutcome env s,
      fanOutcome env s].foldl applyField r0
    (.ok (finalizePartial r), nvidiaCalls s)

/-- Outcome of the Windows reader's collaborators: the overclock
controller's `SetSettings` (`none` = nil error) and the detected
vendor string. -/
structure WindowsGpuEnv where
  ctrlErr : Option String
  vendor : String

/-- gpu_windows.go `WindowsReader.SetOverclockSettings`: delegates to
the overclock controller, then reconstructs an `OverclockResult`. -/
def windowsSetOverclockSettings (env : WindowsGpuEnv) (s : GpuOCSettings) :
    OverclockResult :=
  match env.ctrlErr with
  | some e => { Success := false, Applied := [], Warnings := [], Errors := [e] }
  | none =>
    let applied :=
      (if s.CoreClockOffset ≠ 0 then
        ["Core clock offset: " ++ toString s.CoreClockOffset ++ " MHz"] else []) ++
      (if s.MemoryClockOffset ≠ 0 then
        ["Memory clock offset: " ++ toString s.MemoryClockOffset ++ " MHz"] else []) ++
      (if 0 < s.PowerLimit then ["Power limit: " ++ toString s.PowerLimit ++ "%"] else []) ++
      (if 0 < s.FanSpeed then ["Fan speed: " ++ toString s.FanSpeed ++ "%"] else [])
    let warnings :=
      if env.vendor = "nvidia" ∧
          (s.CoreClockOffset ≠ 0 ∨ s.MemoryClockOffset ≠ 0 ∨ 0 < s.FanSpeed) then
        ["NVIDIA clock/voltage/fan control requires additional tools (MSI Afterburner, EVGA Precision, etc.)"]
      else []
    { Success := true, Applied := applied, Warnings := warnings, Errors := [] }

/-! ## Overclock controller (internal/overclock) -/

/-- overclock.Settings.  `VoltageOffset` is a float64 in the source;
all literals it is compared against are integral and the claims use
integral inputs, so `Int` captures the compared behaviour. -/
structure OCSettings where
  DeviceID : Int
  CoreClockOffset : Int
  MemoryClockOffset : Int
  PowerLimit : Int
  TempLimit : Int
  FanSpeed : Int
  VoltageOffset : Int
deriving DecidableEq, Repr

/-- overclock_linux.go `validateSettings`: every range check is
unconditional. -/
def linuxValidateSettings (s : OCSettings) : Option String :=
  if s.CoreClockOffset < -500 ∨ 500 < s.CoreClockOffset then
    some "core clock offset must be between -500 and +500 MHz"
  else if s.MemoryClockOffset < -1000 ∨ 1000 < s.MemoryClockOffset then
    some "memory clock offset must be between -1000 and +1000 MHz"
  else if s.PowerLimit < 50 ∨ 150 < s.PowerLimit then
    some "power limit must be between 50% and 150%"
  else if s.TempLimit < 60 ∨ 95 < s.TempLimit then
    some "temperature limit must be between 60C and 95C"
  else if s.FanSpeed < 0 ∨ 100 < s.FanSpeed then
    some "fan speed must be between 0% and 100%"
  else if s.VoltageOffset < -100 ∨ 100 < s.VoltageOffset then
    some "voltage offset must be between -100mV and +100mV"
  else none

/-- overclock_windows.go `validateSettings`: each range check except
the fan-speed one is guarded by `!= 0` (zero = not set). -/
def windowsValidateSettings (s : OCSettings) : Option String :=
  if s.CoreClockOffset ≠ 0 ∧ (s.CoreClockOffset < -500 ∨ 500 < s.CoreClockOffset) then
    some "core clock offset must be between -500 and +500 MHz"
  else if s.MemoryClockOffset ≠ 0 ∧
      (s.MemoryClockOffset < -1000 ∨ 1000 < s.MemoryClockOffset) then
    some "memory clock offset must be between -1000 and +1000 MHz"
  else if s.PowerLimit ≠ 0 ∧ (s.PowerLimit < 50 ∨ 150 < s.PowerLimit) then
    some "power limit must be between 50% and 150%"
  else if s.TempLimit ≠ 0 ∧ (s.TempLimit < 60 ∨ 95 < s.TempLimit) then
    some "temperature limit must be between 60C and 95C"
  else if s.FanSpeed < 0 ∨ 100 < s.FanSpeed then
    some "fan speed must be between 0% and 100%"
  else if s.VoltageOffset ≠ 0 ∧ (s.VoltageOffset < -100 ∨ 100 < s.VoltageOffset) then
    some "voltage offset must be between -100mV and +100mV"
  else none

/-- The ranges as the claim states them: a field at its zero sentinel is
exempt, a configured field must lie in its closed range (fan speed's
range contains the sentinel). -/
def claimedValidRanges (s : OCSettings) : Prop :=
  (s.CoreClockOffset = 0 ∨ (-500 ≤ s.CoreClockOffset ∧ s.CoreClockOffset ≤ 500)) ∧
  (s.MemoryClockOffset = 0 ∨ (-1000 ≤ s.MemoryClockOffset ∧ s.MemoryClockOffset ≤ 1000)) ∧
  (s.PowerLimit = 0 ∨ (50 ≤ s.PowerLimit ∧ s.PowerLimit ≤ 150)) ∧
  (s.TempLimit = 0 ∨ (60 ≤ s.TempLimit ∧ s.TempLimit ≤ 95)) ∧
  (0 ≤ s.FanSpeed ∧ s.FanSpeed ≤ 100) ∧
  (s.VoltageOffset = 0 ∨ (-100 ≤ s.VoltageOffset ∧ s.VoltageOffset ≤ 100))

instance (s : OCSettings) : Decidable (claimedValidRanges s) :=
  inferInstanceAs (Decidable (_ ∧ _ ∧ _ ∧ _ ∧ _ ∧ _))

/-- overclock.Profile. -/
structure OCProfile where
  Name : String
  ProfileSettings : OCSettings
deriving DecidableEq, Repr

/-- One entry of the profiles directory: its file name, whether it is a
directory, and its parsed content (`none` = unreadable or not valid
JSON). -/
structure PFile where
  fname : String
  isDir : Bool
  content : Option OCProfile
deriving DecidableEq, Repr

/-- overclock_linux.go `GetProfiles`: skip directories, non-`.json`
files and `_current.json`; skip unreadable or unparsable files.
(`filepath.Ext(name) == ".json"` is exactly `name` ending in `".json"`,
as `"json"` holds no dot.) -/
def getProfiles (store : List PFile) : List OCProfile :=
  store.filterMap (fun f =>
    if ¬f.isDir ∧ f.fname.endsWith ".json" ∧ f.fname ≠ "_current.json" then f.content
    else none)

/-- `ioutil.WriteFile` into the profiles directory: replaces any file
of the same name. -/
def writeProfileFile (store : List PFile) (fname : String) (p : OCProfile) : List PFile :=
  store.filter (fun f => f.fname != fname) ++ [{ fname := fname, isDir := false, content := some p }]

/-- overclock_linux.go `SaveProfile`. -/
def saveProfile (store : List PFile) (p : OCProfile) : List PFile × Option String :=
  if p.Name = "" then (store, some "profile name cannot be empty")
  else if p.Name = "_current" then (store, some "profile name _current is reserved")
  else
    match linuxValidateSettings p.ProfileSettings with
    | some e => (store, some ("invalid profile settings: " ++ e))
    | none => (writeProfileFile store (p.Name ++ ".json") p, none)

/-- overclock_linux.go `SetSettings`: validate, then snapshot the
settings into the reserved `_current.json`. -/
def ocSetSettings (store : List PFile) (s : OCSettings) : List PFile × Option String :=
  match linuxValidateSettings s with
  | some e => (store, some ("invalid settings: " ++ e))
  | none =>
    (writeProfileFile store "_current.json" { Name := "_current", ProfileSettings := s },
     none)

/-- Every profile parsed from the store that bears the reserved name
sits in the reserved file `_current.json`.  Both writers maintain this:
`SetSettings` writes the `_current` profile only to `_current.json`,
and `SaveProfile` refuses the reserved name. -/
def ReservedNameInvariant (store : List PFile) : Prop :=
  ∀ f ∈ store, ∀ p, f.content = some p → p.Name = "_current" → f.fname = "_current.json"

instance (store : List PFile) : Decidable (ReservedNameInvariant store) :=
  inferInstanceAs (Decidable (∀ f ∈ store, ∀ p, f.content = some p → _))

/-! # Theorems -/

/-! ## Sortedness helpers -/

theorem sortedByTemp_cons {p q : CurvePoint} {rest : List CurvePoint} :
    SortedByTemp (p :: q :: rest) ↔
      p.Temperature ≤ q.Temperature ∧ SortedByTemp (q :: rest) := by
  simp [SortedByTemp, sortedByTempB]

theorem sorted_head_le : ∀ {l : List CurvePoint} {p : CurvePoint},
    SortedByTemp (p :: l) → ∀ q ∈ l, p.Temperature ≤ q.Temperature := by
  intro l
  induction l with
  | nil => intro p _ q hq; simp at hq
  | cons a l ih =>
    intro p hs q hq
    have h1 := sortedByTemp_cons.1 hs
    rcases List.mem_cons.1 hq with rfl | hq2
    · exact h1.1
    · exact le_trans h1.1 (ih h1.2 q hq2)

/-! ## The interpolation loop -/

theorem interpGo_finds (fb : Int) :
    ∀ (rest : List CurvePoint) (p : CurvePoint) (T : Int),
      SortedByTemp (p :: rest) →
      p.Temperature < T →
      T < ((p :: rest).getLast (List.cons_ne_nil p rest)).Temperature →
      ∃ pq ∈ (p :: rest).zip rest,
        pq.1.Temperature ≤ T ∧ T ≤ pq.2.Temperature ∧
        interpGo fb (p :: rest) T = some (interpFormula pq.1 pq.2 T) := by
  intro rest
  induction rest with
  | nil =>
    intro p T _ h1 h2
    exact absurd (lt_trans h1 h2) (lt_irrefl _)
  | cons q rest ih =>
    intro p T hs h1 h2
    have hpq := sortedByTemp_cons.1 hs
    by_cases hc : p.Temperature ≤ T ∧ T ≤ q.Temperature
    · have hd : ¬(q.Temperature - p.Temperature = 0) := by omega
      refine ⟨(p, q), ?_, hc.1, hc.2, ?_⟩
      · rw [List.zip_cons_cons]; exact List.mem_cons_self _ _
      · simp [interpGo, hc, hd]
    · have hq : q.Temperature < T := by
        rcases not_and_or.1 hc with h | h
        · omega
        · omega
      have h2b : T < ((q :: rest).getLast (List.cons_ne_nil q rest)).Temperature := h2
      obtain ⟨pq, hmem, hle1, hle2, heq⟩ := ih q T hpq.2 hq h2b
      refine ⟨pq, ?_, hle1, hle2, ?_⟩
      · rw [List.zip_cons_cons]; exact List.mem_cons_of_mem _ hmem
      · simpa [interpGo, hc] using heq

theorem interpGo_exact (fb : Int) :
    ∀ (rest : List CurvePoint) (p : CurvePoint) (T : Int),
      SortedByTemp (p :: rest) →
      p.Temperature < T →
      T < ((p :: rest).getLast (List.cons_ne_nil p rest)).Temperature →
      (∃ r ∈ p :: rest, r.Temperature = T) →
      ∃ q, (p :: rest).find? (fun x => x.Temperature == T) = some q ∧
        interpGo fb (p :: rest) T = some q.FanSpeed := by
  intro rest
  induction rest with
  | nil =>
    intro p T _ h1 h2
    exact absurd (lt_trans h1 h2) (lt_irrefl _)
  | cons q rest ih =>
    intro p T hs h1 h2 hr
    obtain ⟨r, hrmem, hrT⟩ := hr
    have hpq := sortedByTemp_cons.1 hs
    have hrq : r ∈ q :: rest := by
      rcases List.mem_cons.1 hrmem with rfl | h
      · omega
      · exact h
    have hqler : q.Temperature ≤ T := by
      rcases List.mem_cons.1 hrq with rfl | h
      · omega
      · have := sorted_head_le hpq.2 r h; omega
    have hpfalse : (p.Temperature == T) = false := by
      simp only [beq_eq_false_iff_ne]; omega
    by_cases hTq : T ≤ q.Temperature
    · have hqT : q.Temperature = T := le_antisymm hqler hTq
      have hcond : p.Temperature ≤ T ∧ T ≤ q.Temperature := ⟨le_of_lt h1, hTq⟩
      have hd : ¬(q.Temperature - p.Temperature = 0) := by omega
      have hqtrue : (q.Temperature == T) = true := by
        simp only [beq_iff_eq]; exact hqT
      refine ⟨q, ?_, ?_⟩
      · simp [List.find?, hpfalse, hqtrue]
      · have hval : interpFormula p q T = q.FanSpeed := by
          unfold interpFormula
          have hTp : T - p.Temperature = q.Temperature - p.Temperature := by omega
          rw [hTp, Int.mul_tdiv_cancel _ (by omega : q.Temperature - p.Temperature ≠ 0)]
          omega
        simp [interpGo, hcond, hd, hval]
    · push_neg at hTq
      have hcond : ¬(p.Temperature ≤ T ∧ T ≤ q.Temperature) := by omega
      have h2b : T < ((q :: rest).getLast (List.cons_ne_nil q rest)).Temperature := h2
      obtain ⟨q2, hfind, hval⟩ := ih q T hpq.2 hTq h2b ⟨r, hrq, hrT⟩
      refine ⟨q2, ?_, ?_⟩
      · simpa [List.find?, hpfalse] using hfind
      · simpa [interpGo, hcond] using hval

/-! ## Claim C3 -/

/-- Claim C3: for a valid curve (at least 2 points, all values in
0..100) sorted ascending with pairwise distinct temperatures and any
sample `T`, the interpolator clamps below the first point and above the
last point, and otherwise linearly interpolates on a segment
`t_i ≤ T ≤ t_{i+1}` with Go's truncation toward zero; in particular the
two-point curve (0,20)-(100,100) yields 60 at T = 50 and 46 at T = 33. -/
theorem interpolateFanSpeed_spec
    (p0 : CurvePoint) (rest : List CurvePoint) (T : Int)
    (hlen : rest ≠ [])
    (hsorted : SortedByTemp (p0 :: rest))
    (hdistinct : List.Pairwise (fun p q => p.Temperature ≠ q.Temperature) (p0 :: rest))
    (hbounds : ∀ p ∈ p0 :: rest, pointInBounds p) :
    (T ≤ p0.Temperature → interpolateFanSpeed (p0 :: rest) T = some p0.FanSpeed) ∧
    (((p0 :: rest).getLast (List.cons_ne_nil p0 rest)).Temperature ≤ T →
      interpolateFanSpeed (p0 :: rest) T =
        some ((p0 :: rest).getLast (List.cons_ne_nil p0 rest)).FanSpeed) ∧
    (p0.Temperature < T →
      T < ((p0 :: rest).getLast (List.cons_ne_nil p0 rest)).Temperature →
      ∃ pq ∈ (p0 :: rest).zip rest,
        pq.1.Temperature ≤ T ∧ T ≤ pq.2.Temperature ∧
        interpolateFanSpeed (p0 :: rest) T = some (interpFormula pq.1 pq.2 T)) ∧
    interpolateFanSpeed [⟨0, 20⟩, ⟨100, 100⟩] 50 = some 60 ∧
    interpolateFanSpeed [⟨0, 20⟩, ⟨100, 100⟩] 33 = some 46 := by
  have hlast_mem : (p0 :: rest).getLast (List.cons_ne_nil p0 rest) ∈ p0 :: rest :=
    List.getLast_mem _
  have hlast_lt :
      p0.Temperature < ((p0 :: rest).getLast (List.cons_ne_nil p0 rest)).Temperature := by
    have hmem2 : (p0 :: rest).getLast (List.cons_ne_nil p0 rest) ∈ rest := by
      rcases List.mem_cons.1 hlast_mem with heq | h
      · exfalso
        cases rest with
        | nil => exact hlen rfl
        | cons a l =>
          have hlast2 : (p0 :: a :: l).getLast (List.cons_ne_nil p0 (a :: l)) ∈ a :: l :=
            List.getLast_mem (List.cons_ne_nil a l)
          have hne := (List.pairwise_cons.1 hdistinct).1 _ hlast2
          rw [← heq] at hne
          exact hne rfl
      · exact h
    have hle := sorted_head_le hsorted _ hmem2
    have hne := (List.pairwise_cons.1 hdistinct).1 _ hmem2
    omega
  refine ⟨?_, ?_, ?_, by decide, by decide⟩
  · intro h
    simp [interpolateFanSpeed, h]
  · intro h
    have h1 : ¬(T ≤ p0.Temperature) := by omega
    simp [interpolateFanSpeed, h1, h]
  · intro h1 h2
    have h1b : ¬(T ≤ p0.Temperature) := by omega
    have h2b : ¬(((p0 :: rest).getLast (List.cons_ne_nil p0 rest)).Temperature ≤ T) := by
      omega
    obtain ⟨pq, hmem, hle1, hle2, heq⟩ :=
      interpGo_finds (((p0 :: rest).getLast (List.cons_ne_nil p0 rest)).FanSpeed)
        rest p0 T hsorted h1 h2
    refine ⟨pq, hmem, hle1, hle2, ?_⟩
    simpa [interpolateFanSpeed, h1b, h2b] using heq

/-- Witness for C3 at the two-point curve (0,20)-(100,100) and T = 50. -/
theorem interpolateFanSpeed_spec_witness :
    (([⟨100, 100⟩] : List CurvePoint) ≠ [] ∧
     SortedByTemp [⟨0, 20⟩, ⟨100, 100⟩] ∧
     List.Pairwise (fun p q => p.Temperature ≠ q.Temperature)
       ([⟨0, 20⟩, ⟨100, 100⟩] : List CurvePoint) ∧
     (∀ p ∈ ([⟨0, 20⟩, ⟨100, 100⟩] : List CurvePoint), pointInBounds p)) ∧
    (((50 : Int) ≤ (0 : Int) →
        interpolateFanSpeed [⟨0, 20⟩, ⟨100, 100⟩] 50 = some 20) ∧
     (((⟨100, 100⟩ : CurvePoint).Temperature ≤ 50) →
        interpolateFanSpeed [⟨0, 20⟩, ⟨100, 100⟩] 50 = some 100) ∧
     ((0 : Int) < 50 → (50 : Int) < 100 →
        ∃ pq ∈ ([⟨0, 20⟩, ⟨100, 100⟩] : List CurvePoint).zip [⟨100, 100⟩],
          pq.1.Temperature ≤ 50 ∧ (50 : Int) ≤ pq.2.Temperature ∧
          interpolateFanSpeed [⟨0, 20⟩, ⟨100, 100⟩] 50 = some (interpFormula pq.1 pq.2 50)) ∧
     interpolateFanSpeed [⟨0, 20⟩, ⟨100, 100⟩] 50 = some 60 ∧
     interpolateFanSpeed [⟨0, 20⟩, ⟨100, 100⟩] 33 = some 46) := by
  constructor
  · exact ⟨by decide, by decide, by decide, by decide⟩
  · exact interpolateFanSpeed_spec ⟨0, 20⟩ [⟨100, 100⟩] 50 (by decide) (by decide)
      (by decide) (by decide)

/-! ## Claim C4 -/

/-- Claim C4 (amended): on a valid sorted curve, a sample `T` equal to
some point's temperature never faults and returns a matching point's
speed exactly; the first matching point in sorted order wins below the
last point's temperature, but when `T` is the maximal temperature the
last point — not the first matching one — wins. -/
theorem interpolateFanSpeed_exact_match
    (p0 : CurvePoint) (rest : List CurvePoint) (T : Int)
    (hlen : rest ≠ [])
    (hsorted : SortedByTemp (p0 :: rest))
    (hbounds : ∀ p ∈ p0 :: rest, pointInBounds p)
    (hmem : ∃ r ∈ p0 :: rest, r.Temperature = T) :
    (∃ v, interpolateFanSpeed (p0 :: rest) T = some v) ∧
    (T ≤ p0.Temperature →
      (p0 :: rest).find? (fun x => x.Temperature == T) = some p0 ∧
      interpolateFanSpeed (p0 :: rest) T = some p0.FanSpeed) ∧
    (p0.Temperature < T →
      ((p0 :: rest).getLast (List.cons_ne_nil p0 rest)).Temperature ≤ T →
      interpolateFanSpeed (p0 :: rest) T =
        some ((p0 :: rest).getLast (List.cons_ne_nil p0 rest)).FanSpeed) ∧
    (p0.Temperature < T →
      T < ((p0 :: rest).getLast (List.cons_ne_nil p0 rest)).Temperature →
      ∃ q, (p0 :: rest).find? (fun x => x.Temperature == T) = some q ∧
        interpolateFanSpeed (p0 :: rest) T = some q.FanSpeed) := by
  obtain ⟨r, hrmem, hrT⟩ := hmem
  have hcase2 : T ≤ p0.Temperature →
      (p0 :: rest).find? (fun x => x.Temperature == T) = some p0 ∧
      interpolateFanSpeed (p0 :: rest) T = some p0.FanSpeed := by
    intro h
    have hp0T : p0.Temperature = T := by
      rcases List.mem_cons.1 hrmem with rfl | hmem2
      · omega
      · have := sorted_head_le hsorted r hmem2; omega
    have hptrue : (p0.Temperature == T) = true := by
      simp only [beq_iff_eq]; exact hp0T
    constructor
    · simp [List.find?, hptrue]
    · simp [interpolateFanSpeed, h]
  have hcase3 : p0.Temperature < T →
      ((p0 :: rest).getLast (List.cons_ne_nil p0 rest)).Temperature ≤ T →
      interpolateFanSpeed (p0 :: rest) T =
        some ((p0 :: rest).getLast (List.cons_ne_nil p0 rest)).FanSpeed := by
    intro h1 h2
    have h1b : ¬(T ≤ p0.Temperature) := by omega
    simp [interpolateFanSpeed, h1b, h2]
  have hcase4 : p0.Temperature < T →
      T < ((p0 :: rest).getLast (List.cons_ne_nil p0 rest)).Temperature →
      ∃ q, (p0 :: rest).find? (fun x => x.Temperature == T) = some q ∧
        interpolateFanSpeed (p0 :: rest) T = some q.FanSpeed := by
    intro h1 h2
    have h1b : ¬(T ≤ p0.Temperature) := by omega
    have h2b : ¬(((p0 :: rest).getLast (List.cons_ne_nil p0 rest)).Temperature ≤ T) := by
      omega
    obtain ⟨q, hfind, hval⟩ :=
      interpGo_exact (((p0 :: rest).getLast (List.cons_ne_nil p0 rest)).FanSpeed)
        rest p0 T hsorted h1 h2 ⟨r, hrmem, hrT⟩
    exact ⟨q, hfind, by simpa [interpolateFanSpeed, h1b, h2b] using hval⟩
  refine ⟨?_, hcase2, hcase3, hcase4⟩
  by_cases h1 : T ≤ p0.Temperature
  · exact ⟨p0.FanSpeed, (hcase2 h1).2⟩
  · push_neg at h1
    by_cases h2 : ((p0 :: rest).getLast (List.cons_ne_nil p0 rest)).Temperature ≤ T
    · exact ⟨_, hcase3 h1 h2⟩
    · push_neg at h2
      obtain ⟨q, _, hval⟩ := hcase4 h1 h2
      exact ⟨q.FanSpeed, hval⟩

/-- Counterexample to C4 as stated: on the sorted valid curve
(0,10)-(50,20)-(50,30) the sample 50 matches first the point (50,20),
yet the interpolator returns 30, the last point's speed. -/
theorem interpolateFanSpeed_last_dup_counterexample :
    SortedByTemp [⟨0, 10⟩, ⟨50, 20⟩, ⟨50, 30⟩] ∧
    (∀ p ∈ ([⟨0, 10⟩, ⟨50, 20⟩, ⟨50, 30⟩] : List CurvePoint), pointInBounds p) ∧
    ([⟨0, 10⟩, ⟨50, 20⟩, ⟨50, 30⟩] : List CurvePoint).find?
      (fun x => x.Temperature == 50) = some ⟨50, 20⟩ ∧
    interpolateFanSpeed [⟨0, 10⟩, ⟨50, 20⟩, ⟨50, 30⟩] 50 = some 30 ∧
    some (30 : Int) ≠ some ((⟨50, 20⟩ : CurvePoint).FanSpeed) := by
  refine ⟨by decide, by decide, by decide, by decide, by decide⟩

/-- Witness for C4 (amended) at the duplicate-temperature curve
(0,10)-(50,20)-(50,30) and T = 50. -/
theorem interpolateFanSpeed_exact_match_witness :
    (([⟨50, 20⟩, ⟨50, 30⟩] : List CurvePoint) ≠ [] ∧
     SortedByTemp [⟨0, 10⟩, ⟨50, 20⟩, ⟨50, 30⟩] ∧
     (∀ p ∈ ([⟨0, 10⟩, ⟨50, 20⟩, ⟨50, 30⟩] : List CurvePoint), pointInBounds p) ∧
     (∃ r ∈ ([⟨0, 10⟩, ⟨50, 20⟩, ⟨50, 30⟩] : List CurvePoint), r.Temperature = 50)) ∧
    ((∃ v, interpolateFanSpeed [⟨0, 10⟩, ⟨50, 20⟩, ⟨50, 30⟩] 50 = some v) ∧
     ((50 : Int) ≤ 0 →
       ([⟨0, 10⟩, ⟨50, 20⟩, ⟨50, 30⟩] : List CurvePoint).find?
         (fun x => x.Temperature == 50) = some ⟨0, 10⟩ ∧
       interpolateFanSpeed [⟨0, 10⟩, ⟨50, 20⟩, ⟨50, 30⟩] 50 = some 10) ∧
     ((0 : Int) < 50 → (50 : Int) ≤ 50 →
       interpolateFanSpeed [⟨0, 10⟩, ⟨50, 20⟩, ⟨50, 30⟩] 50 = some 30) ∧
     ((0 : Int) < 50 → (50 : Int) < 50 →
       ∃ q, ([⟨0, 10⟩, ⟨50, 20⟩, ⟨50, 30⟩] : List CurvePoint).find?
           (fun x => x.Temperature == 50) = some q ∧
         interpolateFanSpeed [⟨0, 10⟩, ⟨50, 20⟩, ⟨50, 30⟩] 50 = some q.FanSpeed)) := by
  constructor
  · exact ⟨by decide, by decide, by decide, by decide⟩
  · exact interpolateFanSpeed_exact_match ⟨0, 10⟩ [⟨50, 20⟩, ⟨50, 30⟩] 50
      (by decide) (by decide) (by decide) (by decide)

/-! ## Result aggregation (claims C5, C2) -/

theorem applyField_inv (r : OverclockResult) (o : FieldOutcome)
    (h : r.Success = true ↔ r.Errors = []) :
    ((applyField r o).Success = true ↔ (applyField r o).Errors = []) := by
  cases o <;> simp [applyField] <;> simp_all

theorem foldl_applyField_inv :
    ∀ (outs : List FieldOutcome) (r : OverclockResult),
      (r.Success = true ↔ r.Errors = []) →
      ((outs.foldl applyField r).Success = true ↔ (outs.foldl applyField r).Errors = []) := by
  intro outs
  induction outs with
  | nil => intro r h; exact h
  | cons o outs ih => intro r h; exact ih (applyField r o) (applyField_inv r o h)

theorem finalizePartial_inv (r : OverclockResult)
    (h : r.Success = true ↔ r.Errors = []) :
    ((finalizePartial r).Success = true ↔ (finalizePartial r).Errors = []) := by
  unfold finalizePartial
  split
  · rename_i hc
    simp [hc.1]
  · exact h

/-- Claim C5: every `OverclockResult` an apply call returns satisfies
`Success ↔ Errors = []` (for the Linux NVIDIA path under every sink
behaviour, and for the Windows reader); and in the scenario where the
sink accepts core and memory offsets but rejects the power limit for
lack of permission, the result is a success with exactly two applied
entries, one warning and no errors. -/
theorem overclockResult_success_iff_no_errors
    (env : NvidiaEnv) (wenv : WindowsGpuEnv) (s sw : GpuOCSettings) :
    (∀ r, (setNvidiaOverclockSettings env s).1 = .ok r →
      (r.Success = true ↔ r.Errors = [])) ∧
    ((windowsSetOverclockSettings wenv sw).Success = true ↔
      (windowsSetOverclockSettings wenv sw).Errors = []) ∧
    (∃ r, (setNvidiaOverclockSettings
        ({ deviceOk := true, coreErr := none, memErr := none,
           plErr := some "Insufficient permissions", plPermission := true, fanErr := none })
        ({ CoreClockOffset := 50, MemoryClockOffset := 100,
           PowerLimit := 80, FanSpeed := 0 })).1 = .ok r ∧
      r.Success = true ∧ r.Applied.length = 2 ∧ r.Warnings.length = 1 ∧ r.Errors = []) := by
  refine ⟨?_, ?_, ?_⟩
  · intro r h
    by_cases hd : env.deviceOk
    · simp only [setNvidiaOverclockSettings, hd, not_true_eq_false, if_neg,
        ite_false] at h
      simp only [Except.ok.injEq] at h
      subst h
      exact finalizePartial_inv _ (foldl_applyField_inv _ _ (by simp))
    · simp [setNvidiaOverclockSettings, hd] at h
  · cases hc : wenv.ctrlErr with
    | none => simp [windowsSetOverclockSettings, hc]
    | some e => simp [windowsSetOverclockSettings, hc]
  · exact ⟨{ Success := true,
             Applied := ["core clock offset: 50 MHz", "memory clock offset: 100 MHz"],
             Warnings := ["power limit setting requires root privileges (requested: 80%)"],
             Errors := [] }, rfl, rfl, rfl, rfl, rfl⟩

/-- Claim C2: the Linux `SetOverclockSettings` path performs no range
validation.  A request with core clock offset 10000 issues one sink
command carrying 10000 and succeeds, even though the repository's own
validators (both variants) reject that offset. -/
theorem linux_apply_skips_validation :
    nvidiaCalls ({ CoreClockOffset := 10000, MemoryClockOffset := 0,
                   PowerLimit := 0, FanSpeed := 0 }) = [SinkCall.coreOffset 10000] ∧
    (setNvidiaOverclockSettings
        ({ deviceOk := true, coreErr := none, memErr := none,
           plErr := none, plPermission := false, fanErr := none })
        ({ CoreClockOffset := 10000, MemoryClockOffset := 0,
           PowerLimit := 0, FanSpeed := 0 })).1 =
      .ok { Success := true, Applied := ["core clock offset: 10000 MHz"],
            Warnings := [], Errors := [] } ∧
    linuxValidateSettings
        ({ DeviceID := 0, CoreClockOffset := 10000, MemoryClockOffset := 0,
           PowerLimit := 100, TempLimit := 83, FanSpeed := 0, VoltageOffset := 0 }) =
      some "core clock offset must be between -500 and +500 MHz" ∧
    windowsValidateSettings
        ({ DeviceID := 0, CoreClockOffset := 10000, MemoryClockOffset := 0,
           PowerLimit := 100, TempLimit := 83, FanSpeed := 0, VoltageOffset := 0 }) =
      some "core clock offset must be between -500 and +500 MHz" := by
  refine ⟨by decide, rfl, by decide, by decide⟩

/-! ## Validation sentinels (claim C6) -/

/-- Claim C6: the all-sentinel record (every field zero) is valid under
the claim's reading (`claimedValidRanges`) and passes the Windows
validator, but the Linux validator rejects it at the power-limit check;
zero clock offsets, fan speed and voltage pass on Linux only because
zero happens to lie inside their ranges, and Windows does enforce the
range of a configured (non-zero) field. -/
theorem sentinel_zero_validation :
    claimedValidRanges
      ({ DeviceID := 0, CoreClockOffset := 0, MemoryClockOffset := 0,
         PowerLimit := 0, TempLimit := 0, FanSpeed := 0, VoltageOffset := 0 }) ∧
    windowsValidateSettings
        ({ DeviceID := 0, CoreClockOffset := 0, MemoryClockOffset := 0,
           PowerLimit := 0, TempLimit := 0, FanSpeed := 0, VoltageOffset := 0 }) = none ∧
    linuxValidateSettings
        ({ DeviceID := 0, CoreClockOffset := 0, MemoryClockOffset := 0,
           PowerLimit := 0, TempLimit := 0, FanSpeed := 0, VoltageOffset := 0 }) =
      some "power limit must be between 50% and 150%" ∧
    linuxValidateSettings
        ({ DeviceID := 0, CoreClockOffset := 0, MemoryClockOffset := 0,
           PowerLimit := 100, TempLimit := 83, FanSpeed := 0, VoltageOffset := 0 }) = none ∧
    windowsValidateSettings
        ({ DeviceID := 0, CoreClockOffset := 501, MemoryClockOffset := 0,
           PowerLimit := 0, TempLimit := 0, FanSpeed := 0, VoltageOffset := 0 }) =
      some "core clock offset must be between -500 and +500 MHz" ∧
    windowsValidateSettings
        ({ DeviceID := 0, CoreClockOffset := 500, MemoryClockOffset := 0,
           PowerLimit := 0, TempLimit := 0, FanSpeed := 0, VoltageOffset := 0 }) = none := by
  refine ⟨by decide, by decide, by decide, by decide, by decide, by decide⟩

/-! ## Profile store (claim C9) -/

/-- Claim C9: `SaveProfile` rejects the empty and the reserved name,
leaving the store unchanged; no profile listed by `GetProfiles` bears
the reserved name `_current`, on every store satisfying the invariant
both writers maintain (and both writers do maintain it). -/
theorem saveProfile_reserved_and_listing
    (store : List PFile) (s : OCSettings) (p : OCProfile)
    (hwf : ReservedNameInvariant store) :
    saveProfile store ({ Name := "", ProfileSettings := s }) =
      (store, some "profile name cannot be empty") ∧
    saveProfile store ({ Name := "_current", ProfileSettings := s }) =
      (store, some "profile name _current is reserved") ∧
    (∀ q ∈ getProfiles store, q.Name ≠ "_current") ∧
    ReservedNameInvariant (saveProfile store p).1 ∧
    ReservedNameInvariant (ocSetSettings store s).1 := by
  refine ⟨rfl, rfl, ?_, ?_, ?_⟩
  · intro q hq hname
    obtain ⟨f, hf, hcond⟩ := List.mem_filterMap.1 hq
    by_cases hc : ¬f.isDir ∧ f.fname.endsWith ".json" ∧ f.fname ≠ "_current.json"
    · rw [if_pos hc] at hcond
      exact hc.2.2 (hwf f hf q hcond hname)
    · rw [if_neg hc] at hcond
      exact Option.noConfusion hcond
  · unfold saveProfile
    split
    · exact hwf
    · split
      · exact hwf
      · split
        · exact hwf
        · rename_i hne1 hne2 _ _
          intro f hf q hcontent hname
          rcases List.mem_append.1 hf with hmem | hmem
          · exact hwf f (List.mem_of_mem_filter hmem) q hcontent hname
          · simp only [List.mem_singleton] at hmem
            subst hmem
            simp only [Option.some.injEq] at hcontent
            subst hcontent
            exact absurd hname hne2
  · unfold ocSetSettings
    split
    · exact hwf
    · intro f hf q hcontent hname
      rcases List.mem_append.1 hf with hmem | hmem
      · exact hwf f (List.mem_of_mem_filter hmem) q hcontent hname
      · simp only [List.mem_singleton] at hmem
        subst hmem
        rfl

/-- Witness for C9 on a two-file store holding the reserved snapshot
and one ordinary profile. -/
theorem saveProfile_reserved_and_listing_witness :
    ReservedNameInvariant
      [⟨"_current.json", false, some ⟨"_current", ⟨0, 0, 0, 100, 83, 0, 0⟩⟩⟩,
       ⟨"gaming.json", false, some ⟨"gaming", ⟨0, 50, 0, 100, 83, 0, 0⟩⟩⟩] ∧
    (saveProfile
        [⟨"_current.json", false, some ⟨"_current", ⟨0, 0, 0, 100, 83, 0, 0⟩⟩⟩,
         ⟨"gaming.json", false, some ⟨"gaming", ⟨0, 50, 0, 100, 83, 0, 0⟩⟩⟩]
        ({ Name := "", ProfileSettings := ⟨0, 0, 0, 100, 83, 0, 0⟩ }) =
      ([⟨"_current.json", false, some ⟨"_current", ⟨0, 0, 0, 100, 83, 0, 0⟩⟩⟩,
        ⟨"gaming.json", false, some ⟨"gaming", ⟨0, 50, 0, 100, 83, 0, 0⟩⟩⟩],
       some "profile name cannot be empty") ∧
     saveProfile
        [⟨"_current.json", false, some ⟨"_current", ⟨0, 0, 0, 100, 83, 0, 0⟩⟩⟩,
         ⟨"gaming.json", false, some ⟨"gaming", ⟨0, 50, 0, 100, 83, 0, 0⟩⟩⟩]
        ({ Name := "_current", ProfileSettings := ⟨0, 0, 0, 100, 83, 0, 0⟩ }) =
      ([⟨"_current.json", false, some ⟨"_current", ⟨0, 0, 0, 100, 83, 0, 0⟩⟩⟩,
        ⟨"gaming.json", false, some ⟨"gaming", ⟨0, 50, 0, 100, 83, 0, 0⟩⟩⟩],
       some "profile name _current is reserved") ∧
     (∀ q ∈ getProfiles
        [⟨"_current.json", false, some ⟨"_current", ⟨0, 0, 0, 100, 83, 0, 0⟩⟩⟩,
         ⟨"gaming.json", false, some ⟨"gaming", ⟨0, 50, 0, 100, 83, 0, 0⟩⟩⟩],
        q.Name ≠ "_current") ∧
     ReservedNameInvariant
       (saveProfile
          [⟨"_current.json", false, some ⟨"_current", ⟨0, 0, 0, 100, 83, 0, 0⟩⟩⟩,
           ⟨"gaming.json", false, some ⟨"gaming", ⟨0, 50, 0, 100, 83, 0, 0⟩⟩⟩]
          ({ Name := "quiet", ProfileSettings := ⟨0, 0, 0, 100, 83, 0, 0⟩ })).1 ∧
     ReservedNameInvariant
       (ocSetSettings
          [⟨"_current.json", false, some ⟨"_current", ⟨0, 0, 0, 100, 83, 0, 0⟩⟩⟩,
           ⟨"gaming.json", false, some ⟨"gaming", ⟨0, 50, 0, 100, 83, 0, 0⟩⟩⟩]
          ⟨0, 0, 0, 100, 83, 0, 0⟩).1) := by
  constructor
  · decide
  · exact saveProfile_reserved_and_listing _ ⟨0, 0, 0, 100, 83, 0, 0⟩
      { Name := "quiet", ProfileSettings := ⟨0, 0, 0, 100, 83, 0, 0⟩ } (by decide)

/-! ## Association-list lemmas for the curve-state map -/

theorem lookup_eq_some_mem {m : List (Int × Nat)} {k : Int} {v : Nat}
    (h : List.lookup k m = some v) : (k, v) ∈ m := by
  induction m with
  | nil => simp [List.lookup] at h
  | cons e m ih =>
    obtain ⟨ek, ev⟩ := e
    cases hk : (k == ek) with
    | true =>
      have hkk : k = ek := by simpa using hk
      simp [List.lookup, hk] at h
      subst hkk
      subst h
      exact List.mem_cons_self _ _
    | false =>
      simp only [List.lookup, hk] at h
      exact List.mem_cons_of_mem _ (ih h)

theorem mem_mapErase {m : List (Int × Nat)} {k : Int} {e : Int × Nat} :
    e ∈ mapErase m k ↔ e ∈ m ∧ e.1 ≠ k := by
  simp [mapErase, List.mem_filter]

theorem lookup_mapErase_self (m : List (Int × Nat)) (k : Int) :
    List.lookup k (mapErase m k) = none := by
  induction m with
  | nil => rfl
  | cons e m ih =>
    obtain ⟨ek, ev⟩ := e
    by_cases hk : ek = k
    · simpa [mapErase, List.filter, hk] using ih
    · have h1 : (ek != k) = true := by simpa using hk
      have h2 : (k == ek) = false := by simp; omega
      simp only [mapErase, List.filter, h1] at ih ⊢
      simpa [List.lookup, h2] using ih

theorem lookup_mapErase_ne {g k : Int} (m : List (Int × Nat)) (h : g ≠ k) :
    List.lookup g (mapErase m k) = List.lookup g m := by
  induction m with
  | nil => rfl
  | cons e m ih =>
    obtain ⟨ek, ev⟩ := e
    by_cases hk : ek = k
    · have h2 : (g == ek) = false := by simp; omega
      simp only [mapErase, List.filter, show (ek != k) = false by simpa using hk] at ih ⊢
      simpa [List.lookup, h2] using ih
    · have h1 : (ek != k) = true := by simpa using hk
      simp only [mapErase, List.filter, h1] at ih ⊢
      cases hg : (g == ek) with
      | true => simp [List.lookup, hg]
      | false => simpa [List.lookup, hg] using ih

theorem lookup_append_of_none {m1 m2 : List (Int × Nat)} {k : Int}
    (h : List.lookup k m1 = none) :
    List.lookup k (m1 ++ m2) = List.lookup k m2 := by
  induction m1 with
  | nil => rfl
  | cons e m ih =>
    obtain ⟨ek, ev⟩ := e
    cases hk : (k == ek) with
    | true => simp [List.lookup, hk] at h
    | false =>
      simp only [List.lookup, hk] at h
      rw [List.cons_append]
      simpa [List.lookup, hk] using ih h

theorem lookup_mapInsert_self (m : List (Int × Nat)) (k : Int) (v : Nat) :
    List.lookup k (mapInsert m k v) = some v := by
  unfold mapInsert
  rw [lookup_append_of_none (lookup_mapErase_self m k)]
  simp [List.lookup]

theorem lookup_append_left {m1 m2 : List (Int × Nat)} {k : Int} {v : Nat}
    (h : List.lookup k m1 = some v) :
    List.lookup k (m1 ++ m2) = some v := by
  induction m1 with
  | nil => simp [List.lookup] at h
  | cons e m ih =>
    obtain ⟨ek, ev⟩ := e
    cases hk : (k == ek) with
    | true =>
      simp only [List.lookup, hk] at h
      rw [List.cons_append]
      simpa [List.lookup, hk] using h
    | false =>
      simp only [List.lookup, hk] at h
      rw [List.cons_append]
      simpa [List.lookup, hk] using ih h

theorem lookup_mapInsert_ne {g k : Int} (m : List (Int × Nat)) (v : Nat) (h : g ≠ k) :
    List.lookup g (mapInsert m k v) = List.lookup g m := by
  unfold mapInsert
  rw [← lookup_mapErase_ne m h]
  cases hv : List.lookup g (mapErase m k) with
  | none =>
    rw [lookup_append_of_none hv]
    have h2 : (g == k) = false := by simpa using h
    simp [List.lookup, h2]
  | some w => exact lookup_append_left hv

theorem pairwise_keys_mapErase {m : List (Int × Nat)} {k : Int}
    (h : List.Pairwise (fun a b => a.1 ≠ b.1) m) :
    List.Pairwise (fun a b => a.1 ≠ b.1) (mapErase m k) :=
  h.sublist (List.filter_sublist m)

theorem pairwise_keys_mapInsert {m : List (Int × Nat)} {k : Int} {v : Nat}
    (h : List.Pairwise (fun a b => a.1 ≠ b.1) m) :
    List.Pairwise (fun a b => a.1 ≠ b.1) (mapInsert m k v) := by
  unfold mapInsert
  rw [List.pairwise_append]
  refine ⟨pairwise_keys_mapErase h, List.pairwise_singleton _ _, ?_⟩
  intro a ha b hb
  simp only [List.mem_singleton] at hb
  subst hb
  exact (mem_mapErase.1 ha).2

/-! ## Frame and structure lemmas for the fan state machine -/

theorem stopFanCurve_frame (c : LinuxFanController) (f : Int) :
    (stopFanCurve c f).writes = c.writes ∧
    (stopFanCurve c f).fanCount = c.fanCount ∧
    (stopFanCurve c f).nextLid = c.nextLid := by
  unfold stopFanCurve
  split
  · exact ⟨rfl, rfl, rfl⟩
  · split
    · exact ⟨rfl, rfl, rfl⟩
    · split
      · exact ⟨rfl, rfl, rfl⟩
      · exact ⟨rfl, rfl, rfl⟩

theorem setPWMSpeed_loops (c : LinuxFanController) (f v : Int) :
    (setPWMSpeed c f v).loops = c.loops := by
  unfold setPWMSpeed
  split <;> rfl

/-- The loop a map entry names exists, has that id and fan, and is
active (well-formed states). -/
theorem mapEntry_findLoop {c : LinuxFanController} {f : Int} {lid : Nat}
    (hInv : FanInv c) (hrun : List.lookup f c.curveStates = some lid) :
    ∃ l, findLoop c lid = some l ∧ l.lid = lid ∧ l.fanID = f ∧ l.isActive = true := by
  obtain ⟨h1, _, _, _, _, h6, _⟩ := hInv
  obtain ⟨l0, hl0, hlid, hlf, hact⟩ := h6 _ (lookup_eq_some_mem hrun)
  have hsome : (c.loops.find? (fun y => y.lid == lid)).isSome = true :=
    List.find?_isSome.2 ⟨l0, hl0, by simp [hlid]⟩
  cases hy : findLoop c lid with
  | none => rw [findLoop] at hy; rw [hy] at hsome; exact Bool.noConfusion hsome
  | some y =>
    rw [findLoop] at hy
    have hymem : y ∈ c.loops := List.mem_of_find?_eq_some hy
    have hylid : y.lid = lid := by simpa using List.find?_some hy
    have : y = l0 := h1 y hymem l0 hl0 (by rw [hylid, hlid])
    subst this
    exact ⟨y, rfl, hylid, hlf, hact⟩

/-- The active branch of `stopFanCurve`, reduced. -/
theorem stopFanCurve_active_eq {c : LinuxFanController} {f : Int} {lid : Nat} {l : CurveLoop}
    (hl : List.lookup f c.curveStates = some lid)
    (hfind : findLoop c lid = some l) (hlact : l.isActive = true) :
    stopFanCurve c f =
      { c with
        loops := c.loops.map (fun x =>
          if x.lid == lid then { x with isActive := false, stopClosed := true } else x),
        curveStates := mapErase c.curveStates f } := by
  simp only [stopFanCurve, hl, hfind, hlact, if_true]

/-- The no-entry branch of `stopFanCurve`, reduced. -/
theorem stopFanCurve_none_eq {c : LinuxFanController} {f : Int}
    (hl : List.lookup f c.curveStates = none) : stopFanCurve c f = c := by
  simp only [stopFanCurve, hl]

/-- `stopFanCurve` leaves no active loop for the fan. -/
theorem stopFanCurve_kills {c : LinuxFanController} (f : Int) (hInv : FanInv c) :
    ∀ x ∈ (stopFanCurve c f).loops, x.fanID = f → x.isActive = false := by
  intro x hx hxf
  have hInv2 := hInv
  obtain ⟨h1, h2, h3, h4, h5, h6, h7⟩ := hInv2
  cases hl : List.lookup f c.curveStates with
  | none =>
    rw [stopFanCurve_none_eq hl] at hx
    by_contra hact
    have hact2 : x.isActive = true := by revert hact; cases x.isActive <;> simp
    have := h5 x hx hact2
    rw [hxf, hl] at this
    exact Option.noConfusion this
  | some lid =>
    obtain ⟨l, hfind, hllid, hlf, hlact⟩ := mapEntry_findLoop hInv hl
    rw [stopFanCurve_active_eq hl hfind hlact] at hx
    obtain ⟨y, hy, hxy⟩ := List.mem_map.1 hx
    by_cases hylid : (y.lid == lid) = true
    · rw [if_pos hylid] at hxy
      rw [← hxy]
    · rw [if_neg hylid] at hxy
      subst hxy
      by_contra hact
      have hact2 : y.isActive = true := by revert hact; cases y.isActive <;> simp
      have := h5 y hy hact2
      rw [hxf, hl] at this
      simp only [Option.some.injEq] at this
      exact hylid (by simp [this])

/-- `stopFanCurve` removes the fan's map entry. -/
theorem stopFanCurve_removes {c : LinuxFanController} {f : Int} {lid : Nat}
    (hInv : FanInv c) (hrun : List.lookup f c.curveStates = some lid) :
    List.lookup f (stopFanCurve c f).curveStates = none := by
  obtain ⟨l, hfind, hllid, hlf, hlact⟩ := mapEntry_findLoop hInv hrun
  rw [stopFanCurve_active_eq hrun hfind hlact]
  exact lookup_mapErase_self _ _

/-- `stopFanCurve` preserves the controller invariant. -/
theorem stopFanCurve_inv (c : LinuxFanController) (f : Int) (hInv : FanInv c) :
    FanInv (stopFanCurve c f) := by
  cases hl : List.lookup f c.curveStates with
  | none => rw [stopFanCurve_none_eq hl]; exact hInv
  | some lid =>
    obtain ⟨l, hfind, hllid, hlf, hlact⟩ := mapEntry_findLoop hInv hl
    obtain ⟨h1, h2, h3, h4, h5, h6, h7⟩ := hInv
    rw [stopFanCurve_active_eq hl hfind hlact]
    have hlidpres : ∀ y : CurveLoop,
        ((if (y.lid == lid) = true then { y with isActive := false, stopClosed := true }
          else y) : CurveLoop).lid = y.lid := by
      intro y; split <;> rfl
    have hfanpres : ∀ y : CurveLoop,
        ((if (y.lid == lid) = true then { y with isActive := false, stopClosed := true }
          else y) : CurveLoop).fanID = y.fanID := by
      intro y; split <;> rfl
    refine ⟨?_, ?_, ?_, ?_, ?_, ?_, ?_⟩
    · intro x hx y hy hxy
      obtain ⟨a, ha, hxa⟩ := List.mem_map.1 hx
      obtain ⟨b, hb, hyb⟩ := List.mem_map.1 hy
      have : a.lid = b.lid := by
        rw [← hxa, ← hyb] at hxy
        rw [hlidpres a, hlidpres b] at hxy
        exact hxy
      have hab : a = b := h1 a ha b hb this
      rw [← hxa, ← hyb, hab]
    · intro x hx
      obtain ⟨a, ha, hxa⟩ := List.mem_map.1 hx
      rw [← hxa, hlidpres a]
      exact h2 a ha
    · intro x hx
      obtain ⟨a, ha, hxa⟩ := List.mem_map.1 hx
      rw [← hxa, hfanpres a]
      exact h3 a ha
    · intro x hx
      obtain ⟨a, ha, hxa⟩ := List.mem_map.1 hx
      subst hxa
      by_cases halid : (a.lid == lid) = true
      · rw [if_pos halid]; rfl
      · rw [if_neg halid]; exact h4 a ha
    · intro x hx hact
      obtain ⟨a, ha, hxa⟩ := List.mem_map.1 hx
      subst hxa
      by_cases halid : (a.lid == lid) = true
      · rw [if_pos halid] at hact
        exact Bool.noConfusion hact
      · rw [if_neg halid] at hact ⊢
        have hlk := h5 a ha hact
        have haf : a.fanID ≠ f := by
          intro hf
          rw [hf, hl] at hlk
          simp only [Option.some.injEq] at hlk
          exact halid (by simp [hlk])
        rw [lookup_mapErase_ne _ haf]
        exact hlk
    · intro e he
      obtain ⟨hem, hef⟩ := mem_mapErase.1 he
      obtain ⟨l2, hl2, hl2lid, hl2f, hl2act⟩ := h6 e hem
      have hl2ne : (l2.lid == lid) = false := by
        by_contra hc
        have hc2 : l2.lid = lid := by
          revert hc; cases hb : (l2.lid == lid) <;> simp_all
        have hlk2 := h5 l2 hl2 hl2act
        have : l2 = l := h1 l2 hl2 l (List.mem_of_find?_eq_some
          (by rw [findLoop] at hfind; exact hfind)) (by rw [hc2, hllid])
        rw [this] at hl2f
        exact hef (by rw [← hl2f, hlf])
      refine ⟨{ if (l2.lid == lid) = true then
          { l2 with isActive := false, stopClosed := true } else l2 with }, ?_, ?_, ?_, ?_⟩
      · exact List.mem_map_of_mem _ hl2
      · rw [hl2ne]; simp [hl2lid]
      · rw [hl2ne]; simp [hl2f]
      · rw [hl2ne]; simp [hl2act]
    · exact pairwise_keys_mapErase h7

/-- `startFanCurve` preserves the invariant when the fan has no active
loop left and its id is in range. -/
theorem startFanCurve_inv (c : LinuxFanController) (f : Int) (cur : List CurvePoint)
    (hInv : FanInv c)
    (hnoact : ∀ l ∈ c.loops, l.fanID = f → l.isActive = false)
    (hr1 : 0 ≤ f) (hr2 : f < (c.fanCount : Int)) :
    FanInv (startFanCurve c f cur) := by
  obtain ⟨h1, h2, h3, h4, h5, h6, h7⟩ := hInv
  unfold startFanCurve
  refine ⟨?_, ?_, ?_, ?_, ?_, ?_, ?_⟩
  · intro x hx y hy hxy
    rcases List.mem_append.1 hx with hx2 | hx2 <;>
      rcases List.mem_append.1 hy with hy2 | hy2
    · exact h1 x hx2 y hy2 hxy
    · rw [List.mem_singleton.1 hy2] at hxy
      have hxlt := h2 x hx2
      exact absurd hxy (by intro hc; rw [hc] at hxlt; exact lt_irrefl _ hxlt)
    · rw [List.mem_singleton.1 hx2] at hxy
      have hylt := h2 y hy2
      exact absurd hxy.symm (by intro hc; rw [hc] at hylt; exact lt_irrefl _ hylt)
    · rw [List.mem_singleton.1 hx2, List.mem_singleton.1 hy2]
  · intro x hx
    rcases List.mem_append.1 hx with hx2 | hx2
    · show x.lid < c.nextLid + 1
      have := h2 x hx2; omega
    · rw [List.mem_singleton.1 hx2]
      show c.nextLid < c.nextLid + 1
      omega
  · intro x hx
    rcases List.mem_append.1 hx with hx2 | hx2
    · exact h3 x hx2
    · rw [List.mem_singleton.1 hx2]; exact ⟨hr1, hr2⟩
  · intro x hx
    rcases List.mem_append.1 hx with hx2 | hx2
    · exact h4 x hx2
    · rw [List.mem_singleton.1 hx2]; rfl
  · intro x hx hact
    rcases List.mem_append.1 hx with hx2 | hx2
    · have hxf : x.fanID ≠ f := by
        intro hf
        rw [hnoact x hx2 hf] at hact
        exact Bool.noConfusion hact
      rw [lookup_mapInsert_ne _ _ hxf]
      exact h5 x hx2 hact
    · rw [List.mem_singleton.1 hx2]
      exact lookup_mapInsert_self _ _ _
  · intro e he
    rcases List.mem_append.1 he with he2 | he2
    · obtain ⟨hem, hef⟩ := mem_mapErase.1 he2
      obtain ⟨l2, hl2, ha, hb, hc⟩ := h6 e hem
      exact ⟨l2, List.mem_append.2 (Or.inl hl2), ha, hb, hc⟩
    · rw [List.mem_singleton.1 he2]
      exact ⟨_, List.mem_append.2 (Or.inr (List.mem_singleton.2 rfl)), rfl, rfl, rfl⟩
  · exact pairwise_keys_mapInsert h7

/-- After `startFanCurve`, every active loop of the fan carries the
installed curve. -/
theorem startFanCurve_active (c : LinuxFanController) (f : Int) (cur : List CurvePoint)
    (hnoact : ∀ l ∈ c.loops, l.fanID = f → l.isActive = false) :
    ∀ x ∈ (startFanCurve c f cur).loops,
      x.isActive = true → x.fanID = f → x.curve = cur := by
  intro x hx hact hxf
  unfold startFanCurve at hx
  rcases List.mem_append.1 hx with hx2 | hx2
  · rw [hnoact x hx2 hxf] at hact
    exact Bool.noConfusion hact
  · rw [List.mem_singleton.1 hx2]

/-! ## Sorting and validation lemmas -/

theorem mem_insertByTemp {p x : CurvePoint} : ∀ {l : List CurvePoint},
    x ∈ insertByTemp p l ↔ x = p ∨ x ∈ l := by
  intro l
  induction l with
  | nil => simp [insertByTemp]
  | cons q rest ih =>
    unfold insertByTemp
    split
    · simp [List.mem_cons]
    · simp only [List.mem_cons, ih]
      tauto

theorem mem_sortCurve {x : CurvePoint} : ∀ {l : List CurvePoint},
    x ∈ sortCurve l ↔ x ∈ l := by
  intro l
  induction l with
  | nil => simp [sortCurve]
  | cons p rest ih =>
    unfold sortCurve
    rw [mem_insertByTemp]
    simp [List.mem_cons, ih]

theorem validateCurvePoints_some_of_bad :
    ∀ {l : List CurvePoint}, (∃ p ∈ l, ¬pointInBounds p) →
      ∃ e, validateCurvePoints l = some e ∧
        (e = FanErr.curveTempOutOfRange ∨ e = FanErr.curveSpeedOutOfRange) := by
  intro l
  induction l with
  | nil => rintro ⟨p, hp, _⟩; simp at hp
  | cons q rest ih =>
    rintro ⟨p, hp, hbad⟩
    unfold validateCurvePoints
    by_cases h1 : q.Temperature < 0 ∨ 100 < q.Temperature
    · exact ⟨_, by rw [if_pos h1], Or.inl rfl⟩
    · rw [if_neg h1]
      by_cases h2 : q.FanSpeed < 0 ∨ 100 < q.FanSpeed
      · exact ⟨_, by rw [if_pos h2], Or.inr rfl⟩
      · rw [if_neg h2]
        rcases List.mem_cons.1 hp with rfl | hp2
        · exact absurd ⟨by omega, by omega, by omega, by omega⟩ hbad
        · exact ih ⟨p, hp2, hbad⟩

/-! ## The success path of a Curve-mode `SetSettings` call -/

theorem fanSetSettings_curve_ok {c : LinuxFanController} {f : Int} {fs : Int}
    {cu : List CurvePoint} {s1 : LinuxFanController}
    (h : fanSetSettings c f { Mode := .curve, FixedSpeed := fs, Curve := cu } = (s1, none)) :
    ¬((c.fanCount : Int) ≤ f) ∧ 0 ≤ f ∧ ¬(cu.length < 2) ∧
    validateCurvePoints (sortCurve cu) = none ∧
    s1 = startFanCurve
      { stopFanCurve c f with
        writes := (stopFanCurve c f).writes ++ [HWWrite.enable f 1] } f (sortCurve cu) := by
  by_cases h1 : (c.fanCount : Int) ≤ f
  · rw [fanSetSettings, if_pos h1] at h
    exact absurd (congrArg Prod.snd h) (by simp)
  · by_cases h2 : f < 0
    · rw [fanSetSettings, if_neg h1, if_pos h2] at h
      exact absurd (congrArg Prod.snd h) (by simp)
    · by_cases h3 : cu.length < 2
      · simp only [fanSetSettings, if_neg h1, if_neg h2, if_pos h3] at h
        exact absurd (congrArg Prod.snd h) (by simp)
      · cases hv : validateCurvePoints (sortCurve cu) with
        | some e =>
          simp only [fanSetSettings, if_neg h1, if_neg h2, if_neg h3, hv] at h
          exact absurd (congrArg Prod.snd h) (by simp)
        | none =>
          simp only [fanSetSettings, if_neg h1, if_neg h2, if_neg h3, hv] at h
          exact ⟨h1, by omega, h3, rfl, (congrArg Prod.fst h).symm⟩

/-! ## Ticks of the sampling loops -/

theorem tickLoop_frame (c : LinuxFanController) (lid : Nat) (temp : Int) (b : Bool) :
    (tickLoop c lid temp b).curveStates = c.curveStates ∧
    (tickLoop c lid temp b).fanCount = c.fanCount ∧
    (tickLoop c lid temp b).nextLid = c.nextLid := by
  unfold tickLoop setPWMSpeed
  split
  · exact ⟨rfl, rfl, rfl⟩
  · split
    · exact ⟨rfl, rfl, rfl⟩
    · split
      · exact ⟨rfl, rfl, rfl⟩
      · split
        · split
          · exact ⟨rfl, rfl, rfl⟩
          · split
            · exact ⟨rfl, rfl, rfl⟩
            · exact ⟨rfl, rfl, rfl⟩
        · exact ⟨rfl, rfl, rfl⟩

theorem tickLoop_loops_core (c : LinuxFanController) (lid : Nat) (temp : Int) (b : Bool) :
    ∀ x ∈ (tickLoop c lid temp b).loops, ∃ l ∈ c.loops,
      x.lid = l.lid ∧ x.fanID = l.fanID ∧ x.curve = l.curve ∧
      x.isActive = l.isActive ∧ x.stopClosed = l.stopClosed ∧
      (x.returned = l.returned ∨ x.returned = true) := by
  intro x hx
  unfold tickLoop at hx
  split at hx
  · exact ⟨x, hx, rfl, rfl, rfl, rfl, rfl, Or.inl rfl⟩
  · split at hx
    · exact ⟨x, hx, rfl, rfl, rfl, rfl, rfl, Or.inl rfl⟩
    · split at hx
      · rw [show ∀ c2 : LinuxFanController, ∀ L, ({ c2 with loops := L } : LinuxFanController).loops = L
            from fun _ _ => rfl] at hx
        obtain ⟨a, ha, hax⟩ := List.mem_map.1 hx
        subst hax
        by_cases hal : (a.lid == lid) = true
        · rw [if_pos hal]
          exact ⟨a, ha, rfl, rfl, rfl, rfl, rfl, Or.inr rfl⟩
        · rw [if_neg hal]
          exact ⟨a, ha, rfl, rfl, rfl, rfl, rfl, Or.inl rfl⟩
      · split at hx
        · split at hx
          · exact ⟨x, hx, rfl, rfl, rfl, rfl, rfl, Or.inl rfl⟩
          · rw [show ∀ c2 : LinuxFanController, ∀ L, ({ c2 with loops := L } : LinuxFanController).loops = L
                from fun _ _ => rfl] at hx
            rw [setPWMSpeed_loops] at hx
            obtain ⟨a, ha, hax⟩ := List.mem_map.1 hx
            subst hax
            by_cases hal : (a.lid == lid) = true
            · rw [if_pos hal]
              exact ⟨a, ha, rfl, rfl, rfl, rfl, rfl, Or.inl rfl⟩
            · rw [if_neg hal]
              exact ⟨a, ha, rfl, rfl, rfl, rfl, rfl, Or.inl rfl⟩
        · exact ⟨x, hx, rfl, rfl, rfl, rfl, rfl, Or.inl rfl⟩

theorem tickLoop_writes (c : LinuxFanController) (lid : Nat) (temp : Int) (b : Bool) :
    ∀ w ∈ (tickLoop c lid temp b).writes, w ∈ c.writes ∨
      ∃ l ∈ c.loops, l.returned = false ∧ ∃ sp,
        interpolateFanSpeed l.curve temp = some sp ∧
        w = HWWrite.pwm l.fanID (pwmOfPercent sp) := by
  intro w hw
  unfold tickLoop at hw
  split at hw
  · exact Or.inl hw
  · rename_i l hfind
    split at hw
    · exact Or.inl hw
    · rename_i hret
      split at hw
      · exact Or.inl hw
      · split at hw
        · split at hw
          · exact Or.inl hw
          · rename_i sp hsp
            rw [show ∀ c2 : LinuxFanController, ∀ L, ({ c2 with loops := L } : LinuxFanController).writes = c2.writes
                from fun _ _ => rfl] at hw
            unfold setPWMSpeed at hw
            split at hw
            · exact Or.inl hw
            · rcases List.mem_append.1 hw with h | h
              · exact Or.inl h
              · right
                refine ⟨l, List.mem_of_find?_eq_some hfind, ?_, sp, hsp, ?_⟩
                · revert hret; cases l.returned <;> simp
                · simpa using h
        · exact Or.inl hw

/-- A wake-up whose select observes the closed stop channel performs no
hardware write (the goroutine just returns). -/
theorem tickLoop_stop_observe (c : LinuxFanController) (lid : Nat) (temp : Int)
    {l : CurveLoop} (hfind : findLoop c lid = some l) (hstop : l.stopClosed = true) :
    (tickLoop c lid temp true).writes = c.writes := by
  unfold tickLoop
  rw [hfind]
  by_cases hret : l.returned = true
  · simp only [hret, if_true]
  · have hret2 : l.returned = false := by revert hret; cases l.returned <;> simp
    simp only [hret2, Bool.false_eq_true, if_false, hstop, Bool.true_and, if_true]

theorem runTicks_writes_from_curves (f : Int) (ca cb : List CurvePoint)
    (base : List HWWrite) :
    ∀ (ts : List (Nat × Int × Bool)) (c : LinuxFanController),
      (∀ l ∈ c.loops, l.fanID = f → l.returned = true ∨ l.curve = ca ∨ l.curve = cb) →
      (∀ w ∈ c.writes, w ∈ base ∨ WriteFromCurves f ca cb w) →
      ∀ w ∈ (runTicks c ts).writes, w ∈ base ∨ WriteFromCurves f ca cb w := by
  intro ts
  induction ts with
  | nil => intro c hR hW w hw; exact hW w hw
  | cons t ts ih =>
    intro c hR hW
    rw [runTicks]
    apply ih
    · intro x hx hxf
      obtain ⟨l, hl, e1, e2, e3, e4, e5, e6⟩ := tickLoop_loops_core c t.1 t.2.1 t.2.2 x hx
      rcases e6 with e6 | e6
      · rw [e6, e3]
        exact hR l hl (by rw [← e2]; exact hxf)
      · exact Or.inl e6
    · intro w hw
      rcases tickLoop_writes c t.1 t.2.1 t.2.2 w hw with hin | ⟨l, hl, hret, sp, hsp, hweq⟩
      · exact hW w hin
      · right
        intro v hv
        rw [hweq] at hv
        have hfan : l.fanID = f := by injection hv with hfan _
        have hval : pwmOfPercent sp = v := by injection hv with _ hval
        rcases hR l hl hfan with hc | hc | hc
        · rw [hc] at hret; exact Bool.noConfusion hret
        · rw [hc] at hsp
          exact Or.inl ⟨t.2.1, sp, hsp, hval.symm⟩
        · rw [hc] at hsp
          exact Or.inr ⟨t.2.1, sp, hsp, hval.symm⟩

/-- `stopFanCurve` only flips `isActive`/`stopClosed`; fan, curve and
`returned` of every loop record are preserved. -/
theorem stopFanCurve_loops_chain (c : LinuxFanController) (f : Int) :
    ∀ x ∈ (stopFanCurve c f).loops, ∃ l ∈ c.loops,
      x.fanID = l.fanID ∧ x.curve = l.curve ∧ x.returned = l.returned := by
  intro x hx
  unfold stopFanCurve at hx
  split at hx
  · exact ⟨x, hx, rfl, rfl, rfl⟩
  · split at hx
    · exact ⟨x, hx, rfl, rfl, rfl⟩
    · split at hx
      · obtain ⟨a, ha, hax⟩ := List.mem_map.1 hx
        subst hax
        refine ⟨a, ha, ?_, ?_, ?_⟩ <;> (split <;> rfl)
      · exact ⟨x, hx, rfl, rfl, rfl⟩

/-- Through a successful Curve-mode call, every loop of the result
either descends from a loop of the argument state (same fan, curve and
`returned` flag) or is the freshly started loop of the sorted new
curve. -/
theorem setCurve_loops_chain {a b : LinuxFanController} {f fs : Int}
    {cu : List CurvePoint}
    (h : fanSetSettings a f { Mode := .curve, FixedSpeed := fs, Curve := cu } = (b, none)) :
    ∀ x ∈ b.loops,
      (∃ l ∈ a.loops, x.fanID = l.fanID ∧ x.curve = l.curve ∧ x.returned = l.returned) ∨
      (x.fanID = f ∧ x.curve = sortCurve cu ∧ x.returned = false) := by
  obtain ⟨_, _, _, _, hbeq⟩ := fanSetSettings_curve_ok h
  subst hbeq
  intro x hx
  unfold startFanCurve at hx
  rcases List.mem_append.1 hx with hx2 | hx2
  · exact Or.inl (stopFanCurve_loops_chain a f x hx2)
  · rw [List.mem_singleton.1 hx2]
    exact Or.inr ⟨rfl, rfl, rfl⟩

/-- On the constant-speed two-point curve (0,100)-(100,100) the
interpolator returns 100 at every temperature. -/
theorem interpolateFanSpeed_const100 (t : Int) :
    interpolateFanSpeed [⟨0, 100⟩, ⟨100, 100⟩] t = some 100 := by
  unfold interpolateFanSpeed
  by_cases h1 : t ≤ (0 : Int)
  · simp [h1]
  · by_cases h2 : (100 : Int) ≤ t
    · simp [h1, h2, List.getLast]
    · have hc : (0 : Int) ≤ t ∧ t ≤ 100 := ⟨by omega, by omega⟩
      simp [h1, h2, List.getLast, interpGo, interpFormula, hc]

/-! ## Claim C7 -/

/-- Claim C7 (amended): from a well-formed state whose earlier loops
for the fan have all exited, two successive successful Curve-mode
`SetSettings` calls leave a well-formed state in which the only active
loop for the fan carries the second (sorted) curve; every subsequent
PWM write for the fan is an interpolation of the second curve or — from
a raced tick of the cancelled first loop, whose stop channel is closed
without waiting for acknowledgment — of the first curve; and a wake-up
of the cancelled loop whose select observes the closed channel
performs no write. -/
theorem curve_replacement_single_loop
    (s s1 s2 : LinuxFanController) (f : Int) (c1 c2 : List CurvePoint) (fs1 fs2 : Int)
    (hInv : FanInv s)
    (hq : ∀ l ∈ s.loops, l.fanID = f → l.returned = true)
    (h1 : fanSetSettings s f { Mode := .curve, FixedSpeed := fs1, Curve := c1 } = (s1, none))
    (h2 : fanSetSettings s1 f { Mode := .curve, FixedSpeed := fs2, Curve := c2 } = (s2, none)) :
    FanInv s2 ∧
    (∀ l ∈ s2.loops, l.isActive = true → l.fanID = f → l.curve = sortCurve c2) ∧
    (∀ ts : List (Nat × Int × Bool), ∀ w ∈ (runTicks s2 ts).writes, w ∉ s2.writes →
      ∀ v, w = HWWrite.pwm f v →
        (∃ temp sp, interpolateFanSpeed (sortCurve c2) temp = some sp ∧
          v = pwmOfPercent sp) ∨
        (∃ temp sp, interpolateFanSpeed (sortCurve c1) temp = some sp ∧
          v = pwmOfPercent sp)) ∧
    (∀ (lid : Nat) (temp : Int), ∀ l, findLoop s2 lid = some l → l.stopClosed = true →
      (tickLoop s2 lid temp true).writes = s2.writes) := by
  have step : ∀ (a b : LinuxFanController) (cu : List CurvePoint) (fs : Int),
      FanInv a →
      fanSetSettings a f { Mode := .curve, FixedSpeed := fs, Curve := cu } = (b, none) →
      FanInv b ∧ (∀ l ∈ b.loops, l.isActive = true → l.fanID = f → l.curve = sortCurve cu) := by
    intro a b cu fs hInva heq
    obtain ⟨hn1, hn2, _, _, hbeq⟩ := fanSetSettings_curve_ok heq
    have hInvStop : FanInv
        ({ stopFanCurve a f with
           writes := (stopFanCurve a f).writes ++ [HWWrite.enable f 1] }) :=
      stopFanCurve_inv a f hInva
    have hnoact : ∀ l ∈ ({ stopFanCurve a f with
        writes := (stopFanCurve a f).writes ++ [HWWrite.enable f 1] }).loops,
        l.fanID = f → l.isActive = false :=
      stopFanCurve_kills f hInva
    have hfc : ({ stopFanCurve a f with
        writes := (stopFanCurve a f).writes ++ [HWWrite.enable f 1] }).fanCount
        = a.fanCount := (stopFanCurve_frame a f).2.1
    have hr2 : f < (({ stopFanCurve a f with
        writes := (stopFanCurve a f).writes ++ [HWWrite.enable f 1] }).fanCount : Int) := by
      rw [hfc]; omega
    subst hbeq
    exact ⟨startFanCurve_inv _ f (sortCurve cu) hInvStop hnoact hn2 hr2,
      startFanCurve_active _ f (sortCurve cu) hnoact⟩
  obtain ⟨hInv1, _⟩ := step s s1 c1 fs1 hInv h1
  obtain ⟨hInv2, hact2⟩ := step s1 s2 c2 fs2 hInv1 h2
  have hR2 : ∀ l ∈ s2.loops, l.fanID = f →
      l.returned = true ∨ l.curve = sortCurve c2 ∨ l.curve = sortCurve c1 := by
    intro l hl hlf
    rcases setCurve_loops_chain h2 l hl with ⟨l1, hl1, e1, e2, e3⟩ | ⟨_, e2, _⟩
    · rcases setCurve_loops_chain h1 l1 hl1 with ⟨l0, hl0, g1, g2, g3⟩ | ⟨_, g2, _⟩
      · left
        rw [e3, g3]
        exact hq l0 hl0 (by rw [← g1, ← e1, hlf])
      · right; right
        rw [e2, g2]
    · right; left
      exact e2
  refine ⟨hInv2, hact2, ?_, ?_⟩
  · intro ts w hw hnotin v hv
    have := runTicks_writes_from_curves f (sortCurve c2) (sortCurve c1) s2.writes ts s2
      hR2 (fun w hw => Or.inl hw) w hw
    rcases this with hin | hgood
    · exact absurd hin hnotin
    · exact hgood v hv
  · intro lid temp l hfind hstop
    exact tickLoop_stop_observe s2 lid temp hfind hstop

/-- Counterexample to C7 as stated: after replacing the curve
(0,20)-(100,100) with the constant curve (0,100)-(100,100), a tick of
the cancelled first loop that raced its cancellation (its select did
not take the closed stop channel) writes PWM 153 — a first-curve value
that the second curve can never produce (all its interpolations give
PWM 255). -/
theorem raced_tick_writes_first_curve :
    (FanInv { fanCount := 1, curveStates := [], loops := [], nextLid := 0, writes := [] } ∧
     (∀ l ∈ ({ fanCount := 1, curveStates := [], loops := [], nextLid := 0,
               writes := [] } : LinuxFanController).loops,
       l.fanID = 0 → l.returned = true) ∧
     fanSetSettings { fanCount := 1, curveStates := [], loops := [], nextLid := 0, writes := [] }
       0 { Mode := .curve, FixedSpeed := 0, Curve := [⟨0, 20⟩, ⟨100, 100⟩] } =
       ({ fanCount := 1, curveStates := [(0, 0)],
          loops := [{ lid := 0, fanID := 0, curve := [⟨0, 20⟩, ⟨100, 100⟩],
                      lastTemp := 0, isActive := true, stopClosed := false,
                      returned := false }],
          nextLid := 1, writes := [HWWrite.enable 0 1] }, none) ∧
     fanSetSettings
       { fanCount := 1, curveStates := [(0, 0)],
         loops := [{ lid := 0, fanID := 0, curve := [⟨0, 20⟩, ⟨100, 100⟩],
                     lastTemp := 0, isActive := true, stopClosed := false,
                     returned := false }],
         nextLid := 1, writes := [HWWrite.enable 0 1] }
       0 { Mode := .curve, FixedSpeed := 0, Curve := [⟨0, 100⟩, ⟨100, 100⟩] } =
       ({ fanCount := 1, curveStates := [(0, 1)],
          loops := [{ lid := 0, fanID := 0, curve := [⟨0, 20⟩, ⟨100, 100⟩],
                      lastTemp := 0, isActive := false, stopClosed := true,
                      returned := false },
                    { lid := 1, fanID := 0, curve := [⟨0, 100⟩, ⟨100, 100⟩],
                      lastTemp := 0, isActive := true, stopClosed := false,
                      returned := false }],
          nextLid := 2,
          writes := [HWWrite.enable 0 1, HWWrite.enable 0 1] }, none)) ∧
    (runTicks
      { fanCount := 1, curveStates := [(0, 1)],
        loops := [{ lid := 0, fanID := 0, curve := [⟨0, 20⟩, ⟨100, 100⟩],
                    lastTemp := 0, isActive := false, stopClosed := true,
                    returned := false },
                  { lid := 1, fanID := 0, curve := [⟨0, 100⟩, ⟨100, 100⟩],
                    lastTemp := 0, isActive := true, stopClosed := false,
                    returned := false }],
        nextLid := 2,
        writes := [HWWrite.enable 0 1, HWWrite.enable 0 1] } [(0, 50, false)]).writes =
      [HWWrite.enable 0 1, HWWrite.enable 0 1, HWWrite.pwm 0 153] ∧
    HWWrite.pwm 0 153 ∉ [HWWrite.enable 0 1, HWWrite.enable 0 1] ∧
    sortCurve [⟨0, 100⟩, ⟨100, 100⟩] = [⟨0, 100⟩, ⟨100, 100⟩] ∧
    (∀ (temp sp : Int), interpolateFanSpeed [⟨0, 100⟩, ⟨100, 100⟩] temp = some sp →
      pwmOfPercent sp ≠ 153) := by
  refine ⟨⟨by decide, by decide, by decide, by decide⟩, by decide, by decide, by decide, ?_⟩
  intro temp sp h
  rw [interpolateFanSpeed_const100 temp] at h
  have hsp : sp = 100 := by
    simpa using h.symm
  rw [hsp]
  decide

/-- Witness for the amended C7: fan 0 of a one-fan controller is set to
the curve (0,20)-(100,100) and then to (0,30)-(100,90). -/
theorem curve_replacement_single_loop_witness :
    (FanInv
      { fanCount := 1, curveStates := [], loops := [], nextLid := 0, writes := [] } ∧
     (∀ l ∈ ({ fanCount := 1, curveStates := [], loops := [], nextLid := 0,
               writes := [] } : LinuxFanController).loops,
       l.fanID = 0 → l.returned = true) ∧
     fanSetSettings
       { fanCount := 1, curveStates := [], loops := [], nextLid := 0, writes := [] }
       0 { Mode := .curve, FixedSpeed := 0, Curve := [⟨0, 20⟩, ⟨100, 100⟩] } =
       ({ fanCount := 1, curveStates := [(0, 0)],
          loops := [{ lid := 0, fanID := 0, curve := [⟨0, 20⟩, ⟨100, 100⟩],
                      lastTemp := 0, isActive := true, stopClosed := false,
                      returned := false }],
          nextLid := 1, writes := [HWWrite.enable 0 1] }, none) ∧
     fanSetSettings
       { fanCount := 1, curveStates := [(0, 0)],
         loops := [{ lid := 0, fanID := 0, curve := [⟨0, 20⟩, ⟨100, 100⟩],
                     lastTemp := 0, isActive := true, stopClosed := false,
                     returned := false }],
         nextLid := 1, writes := [HWWrite.enable 0 1] }
       0 { Mode := .curve, FixedSpeed := 0, Curve := [⟨0, 30⟩, ⟨100, 90⟩] } =
       ({ fanCount := 1, curveStates := [(0, 1)],
          loops := [{ lid := 0, fanID := 0, curve := [⟨0, 20⟩, ⟨100, 100⟩],
                      lastTemp := 0, isActive := false, stopClosed := true,
                      returned := false },
                    { lid := 1, fanID := 0, curve := [⟨0, 30⟩, ⟨100, 90⟩],
                      lastTemp := 0, isActive := true, stopClosed := false,
                      returned := false }],
          nextLid := 2,
          writes := [HWWrite.enable 0 1, HWWrite.enable 0 1] }, none)) ∧
    (FanInv
      (LinuxFanController.mk 1 [(0, 1)]
        [{ lid := 0, fanID := 0, curve := [⟨0, 20⟩, ⟨100, 100⟩],
           lastTemp := 0, isActive := false, stopClosed := true, returned := false },
         { lid := 1, fanID := 0, curve := [⟨0, 30⟩, ⟨100, 90⟩],
           lastTemp := 0, isActive := true, stopClosed := false, returned := false }]
        2 [HWWrite.enable 0 1, HWWrite.enable 0 1]) ∧
     (∀ l ∈ (LinuxFanController.mk 1 [(0, 1)]
        [{ lid := 0, fanID := 0, curve := [⟨0, 20⟩, ⟨100, 100⟩],
           lastTemp := 0, isActive := false, stopClosed := true, returned := false },
         { lid := 1, fanID := 0, curve := [⟨0, 30⟩, ⟨100, 90⟩],
           lastTemp := 0, isActive := true, stopClosed := false, returned := false }]
        2 [HWWrite.enable 0 1, HWWrite.enable 0 1]).loops,
       l.isActive = true → l.fanID = 0 → l.curve = sortCurve [⟨0, 30⟩, ⟨100, 90⟩]) ∧
     (∀ ts : List (Nat × Int × Bool),
       ∀ w ∈ (runTicks (LinuxFanController.mk 1 [(0, 1)]
           [{ lid := 0, fanID := 0, curve := [⟨0, 20⟩, ⟨100, 100⟩],
              lastTemp := 0, isActive := false, stopClosed := true, returned := false },
            { lid := 1, fanID := 0, curve := [⟨0, 30⟩, ⟨100, 90⟩],
              lastTemp := 0, isActive := true, stopClosed := false, returned := false }]
           2 [HWWrite.enable 0 1, HWWrite.enable 0 1]) ts).writes,
         w ∉ (LinuxFanController.mk 1 [(0, 1)]
           [{ lid := 0, fanID := 0, curve := [⟨0, 20⟩, ⟨100, 100⟩],
              lastTemp := 0, isActive := false, stopClosed := true, returned := false },
            { lid := 1, fanID := 0, curve := [⟨0, 30⟩, ⟨100, 90⟩],
              lastTemp := 0, isActive := true, stopClosed := false, returned := false }]
           2 [HWWrite.enable 0 1, HWWrite.enable 0 1]).writes →
         ∀ v, w = HWWrite.pwm 0 v →
           (∃ temp sp,
             interpolateFanSpeed (sortCurve [⟨0, 30⟩, ⟨100, 90⟩]) temp = some sp ∧
             v = pwmOfPercent sp) ∨
           (∃ temp sp,
             interpolateFanSpeed (sortCurve [⟨0, 20⟩, ⟨100, 100⟩]) temp = some sp ∧
             v = pwmOfPercent sp)) ∧
     (∀ (lid : Nat) (temp : Int), ∀ l,
       findLoop (LinuxFanController.mk 1 [(0, 1)]
         [{ lid := 0, fanID := 0, curve := [⟨0, 20⟩, ⟨100, 100⟩],
            lastTemp := 0, isActive := false, stopClosed := true, returned := false },
          { lid := 1, fanID := 0, curve := [⟨0, 30⟩, ⟨100, 90⟩],
            lastTemp := 0, isActive := true, stopClosed := false, returned := false }]
         2 [HWWrite.enable 0 1, HWWrite.enable 0 1]) lid = some l →
       l.stopClosed = true →
       (tickLoop (LinuxFanController.mk 1 [(0, 1)]
         [{ lid := 0, fanID := 0, curve := [⟨0, 20⟩, ⟨100, 100⟩],
            lastTemp := 0, isActive := false, stopClosed := true, returned := false },
          { lid := 1, fanID := 0, curve := [⟨0, 30⟩, ⟨100, 90⟩],
            lastTemp := 0, isActive := true, stopClosed := false, returned := false }]
         2 [HWWrite.enable 0 1, HWWrite.enable 0 1]) lid temp true).writes =
       (LinuxFanController.mk 1 [(0, 1)]
         [{ lid := 0, fanID := 0, curve := [⟨0, 20⟩, ⟨100, 100⟩],
            lastTemp := 0, isActive := false, stopClosed := true, returned := false },
          { lid := 1, fanID := 0, curve := [⟨0, 30⟩, ⟨100, 90⟩],
            lastTemp := 0, isActive := true, stopClosed := false, returned := false }]
         2 [HWWrite.enable 0 1, HWWrite.enable 0 1]).writes)) := by
  constructor
  · exact ⟨by decide, by decide, by decide, by decide⟩
  · exact curve_replacement_single_loop
      { fanCount := 1, curveStates := [], loops := [], nextLid := 0, writes := [] }
      { fanCount := 1, curveStates := [(0, 0)],
        loops := [{ lid := 0, fanID := 0, curve := [⟨0, 20⟩, ⟨100, 100⟩],
                    lastTemp := 0, isActive := true, stopClosed := false,
                    returned := false }],
        nextLid := 1, writes := [HWWrite.enable 0 1] }
      { fanCount := 1, curveStates := [(0, 1)],
        loops := [{ lid := 0, fanID := 0, curve := [⟨0, 20⟩, ⟨100, 100⟩],
                    lastTemp := 0, isActive := false, stopClosed := true,
                    returned := false },
                  { lid := 1, fanID := 0, curve := [⟨0, 30⟩, ⟨100, 90⟩],
                    lastTemp := 0, isActive := true, stopClosed := false,
                    returned := false }],
        nextLid := 2, writes := [HWWrite.enable 0 1, HWWrite.enable 0 1] }
      0 [⟨0, 20⟩, ⟨100, 100⟩] [⟨0, 30⟩, ⟨100, 90⟩] 0 0
      (by decide) (by decide) (by decide) (by decide)

/-! ## Claim C10 -/

/-- Claim C10: a Curve-mode `SetSettings` call with an invalid curve,
made while a curve loop is running, stops and removes that loop before
validation, returns the validation error without restoring it, and
issues no hardware write. -/
theorem invalid_curve_drops_previous_loop
    (s : LinuxFanController) (f : Int) (cu : List CurvePoint) (lid : Nat) (fs : Int)
    (hInv : FanInv s)
    (hrun : List.lookup f s.curveStates = some lid)
    (hbad : cu.length < 2 ∨ ∃ p ∈ cu, ¬pointInBounds p) :
    ∃ e, fanSetSettings s f { Mode := .curve, FixedSpeed := fs, Curve := cu } =
        (stopFanCurve s f, some e) ∧
      (e = FanErr.curveTooFewPoints ∨ e = FanErr.curveTempOutOfRange ∨
        e = FanErr.curveSpeedOutOfRange) ∧
      List.lookup f (stopFanCurve s f).curveStates = none ∧
      (∀ l ∈ (stopFanCurve s f).loops, l.fanID = f → l.isActive = false) ∧
      (stopFanCurve s f).writes = s.writes := by
  obtain ⟨l0, hl0, _, hl0f, _⟩ := hInv.2.2.2.2.2.1 _ (lookup_eq_some_mem hrun)
  have hr := hInv.2.2.1 l0 hl0
  rw [hl0f] at hr
  have h1 : ¬((s.fanCount : Int) ≤ f) := by omega
  have h2 : ¬(f < 0) := by omega
  have hcore : ∃ e, fanSetSettings s f { Mode := .curve, FixedSpeed := fs, Curve := cu } =
      (stopFanCurve s f, some e) ∧
      (e = FanErr.curveTooFewPoints ∨ e = FanErr.curveTempOutOfRange ∨
        e = FanErr.curveSpeedOutOfRange) := by
    by_cases h3 : cu.length < 2
    · refine ⟨FanErr.curveTooFewPoints, ?_, Or.inl rfl⟩
      simp only [fanSetSettings, if_neg h1, if_neg h2, if_pos h3]
    · have hb2 : ∃ p ∈ cu, ¬pointInBounds p := by
        rcases hbad with hb | hb
        · exact absurd hb h3
        · exact hb
      obtain ⟨p, hp, hbadp⟩ := hb2
      obtain ⟨e, hv, he⟩ :=
        validateCurvePoints_some_of_bad ⟨p, mem_sortCurve.2 hp, hbadp⟩
      refine ⟨e, ?_, Or.inr he⟩
      simp only [fanSetSettings, if_neg h1, if_neg h2, if_neg h3, hv]
  obtain ⟨e, heq, hkind⟩ := hcore
  exact ⟨e, heq, hkind, stopFanCurve_removes hInv hrun, stopFanCurve_kills f hInv,
    (stopFanCurve_frame s f).1⟩

/-- Witness for C10: an empty curve is submitted for fan 0 while its
loop is running. -/
theorem invalid_curve_drops_previous_loop_witness :
    (FanInv
      { fanCount := 1, curveStates := [(0, 0)],
        loops := [{ lid := 0, fanID := 0, curve := [⟨0, 20⟩, ⟨100, 100⟩],
                    lastTemp := 0, isActive := true, stopClosed := false,
                    returned := false }],
        nextLid := 1, writes := [HWWrite.enable 0 1] } ∧
     List.lookup 0 (LinuxFanController.mk 1 [(0, 0)]
        [{ lid := 0, fanID := 0, curve := [⟨0, 20⟩, ⟨100, 100⟩],
           lastTemp := 0, isActive := true, stopClosed := false,
                    returned := false }]
        1 [HWWrite.enable 0 1]).curveStates = some 0 ∧
     (([] : List CurvePoint).length < 2 ∨ ∃ p ∈ ([] : List CurvePoint), ¬pointInBounds p)) ∧
    (∃ e, fanSetSettings
        (LinuxFanController.mk 1 [(0, 0)]
          [{ lid := 0, fanID := 0, curve := [⟨0, 20⟩, ⟨100, 100⟩],
             lastTemp := 0, isActive := true, stopClosed := false,
                    returned := false }]
          1 [HWWrite.enable 0 1])
        0 { Mode := .curve, FixedSpeed := 0, Curve := [] } =
        (stopFanCurve
          (LinuxFanController.mk 1 [(0, 0)]
            [{ lid := 0, fanID := 0, curve := [⟨0, 20⟩, ⟨100, 100⟩],
               lastTemp := 0, isActive := true, stopClosed := false,
                    returned := false }]
            1 [HWWrite.enable 0 1]) 0, some e) ∧
      (e = FanErr.curveTooFewPoints ∨ e = FanErr.curveTempOutOfRange ∨
        e = FanErr.curveSpeedOutOfRange) ∧
      List.lookup 0 (stopFanCurve
          (LinuxFanController.mk 1 [(0, 0)]
            [{ lid := 0, fanID := 0, curve := [⟨0, 20⟩, ⟨100, 100⟩],
               lastTemp := 0, isActive := true, stopClosed := false,
                    returned := false }]
            1 [HWWrite.enable 0 1]) 0).curveStates = none ∧
      (∀ l ∈ (stopFanCurve
          (LinuxFanController.mk 1 [(0, 0)]
            [{ lid := 0, fanID := 0, curve := [⟨0, 20⟩, ⟨100, 100⟩],
               lastTemp := 0, isActive := true, stopClosed := false,
                    returned := false }]
            1 [HWWrite.enable 0 1]) 0).loops,
        l.fanID = 0 → l.isActive = false) ∧
      (stopFanCurve
          (LinuxFanController.mk 1 [(0, 0)]
            [{ lid := 0, fanID := 0, curve := [⟨0, 20⟩, ⟨100, 100⟩],
               lastTemp := 0, isActive := true, stopClosed := false,
                    returned := false }]
            1 [HWWrite.enable 0 1]) 0).writes =
        (LinuxFanController.mk 1 [(0, 0)]
          [{ lid := 0, fanID := 0, curve := [⟨0, 20⟩, ⟨100, 100⟩],
             lastTemp := 0, isActive := true, stopClosed := false,
                    returned := false }]
          1 [HWWrite.enable 0 1]).writes) := by
  constructor
  · exact ⟨by decide, by decide, by decide⟩
  · exact invalid_curve_drops_previous_loop
      { fanCount := 1, curveStates := [(0, 0)],
        loops := [{ lid := 0, fanID := 0, curve := [⟨0, 20⟩, ⟨100, 100⟩],
                    lastTemp := 0, isActive := true, stopClosed := false,
                    returned := false }],
        nextLid := 1, writes := [HWWrite.enable 0 1] }
      0 [] 0 0 (by decide) (by decide) (by decide)

/-! ## Claim C8 -/

/-- Claim C8 (amended): a fan ID at or above the discovered fan count
fails with the not-found error before any hardware access, for both
`GetSettings` and `SetSettings`; a negative fan ID, however, passes the
guard (which only checks the upper bound) and hits the
index-out-of-range fault at `c.pwmPaths[fanID]`. -/
theorem fan_id_range_check (c : LinuxFanController) (env : HwEnv) (f : Int)
    (s : FanSettings) (hInv : FanInv c) :
    ((c.fanCount : Int) ≤ f →
      fanGetSettings c env f = .error FanErr.notFound ∧
      fanSetSettings c f s = (c, some FanErr.notFound)) ∧
    (f < 0 →
      fanGetSettings c env f = .error FanErr.indexPanic ∧
      fanSetSettings c f s = (c, some FanErr.indexPanic)) := by
  constructor
  · intro h
    constructor
    · simp only [fanGetSettings, if_pos h]
    · rw [fanSetSettings, if_pos h]
  · intro h
    have h1 : ¬((c.fanCount : Int) ≤ f) := by omega
    have hlk : List.lookup f c.curveStates = none := by
      cases hl : List.lookup f c.curveStates with
      | none => rfl
      | some lid =>
        exfalso
        obtain ⟨l0, hl0, _, hl0f, _⟩ := hInv.2.2.2.2.2.1 _ (lookup_eq_some_mem hl)
        have hr := hInv.2.2.1 l0 hl0
        rw [hl0f] at hr
        omega
    constructor
    · simp only [fanGetSettings, if_neg h1, hlk, fanGetSettingsHw, if_pos h]
    · rw [fanSetSettings, if_neg h1, if_pos h]

/-- Witness for C8 at fan IDs 2 and -1 of a one-fan controller. -/
theorem fan_id_range_check_witness :
    FanInv { fanCount := 1, curveStates := [], loops := [], nextLid := 0, writes := [] } ∧
    (((1 : Nat) : Int) ≤ 2 →
      fanGetSettings { fanCount := 1, curveStates := [], loops := [], nextLid := 0, writes := [] }
        { enableContent := fun _ => none, pwmContent := fun _ => none } 2 =
        .error FanErr.notFound ∧
      fanSetSettings { fanCount := 1, curveStates := [], loops := [], nextLid := 0, writes := [] }
        2 { Mode := .auto, FixedSpeed := 0, Curve := [] } =
        ({ fanCount := 1, curveStates := [], loops := [], nextLid := 0, writes := [] },
         some FanErr.notFound)) ∧
    ((-1 : Int) < 0 →
      fanGetSettings { fanCount := 1, curveStates := [], loops := [], nextLid := 0, writes := [] }
        { enableContent := fun _ => none, pwmContent := fun _ => none } (-1) =
        .error FanErr.indexPanic ∧
      fanSetSettings { fanCount := 1, curveStates := [], loops := [], nextLid := 0, writes := [] }
        (-1) { Mode := .auto, FixedSpeed := 0, Curve := [] } =
        ({ fanCount := 1, curveStates := [], loops := [], nextLid := 0, writes := [] },
         some FanErr.indexPanic)) := by
  refine ⟨by decide, ?_, ?_⟩
  · exact (fan_id_range_check
      { fanCount := 1, curveStates := [], loops := [], nextLid := 0, writes := [] }
      { enableContent := fun _ => none, pwmContent := fun _ => none } 2
      { Mode := .auto, FixedSpeed := 0, Curve := [] } (by decide)).1
  · exact (fan_id_range_check
      { fanCount := 1, curveStates := [], loops := [], nextLid := 0, writes := [] }
      { enableContent := fun _ => none, pwmContent := fun _ => none } (-1)
      { Mode := .auto, FixedSpeed := 0, Curve := [] } (by decide)).2

/-- Counterexample to C8 as stated: for the out-of-range fan ID -1 the
controller faults with an index panic instead of returning the
not-found error. -/
theorem negative_fan_id_panics :
    fanGetSettings { fanCount := 1, curveStates := [], loops := [], nextLid := 0, writes := [] }
      { enableContent := fun _ => none, pwmContent := fun _ => none } (-1) =
      .error FanErr.indexPanic ∧
    fanSetSettings { fanCount := 1, curveStates := [], loops := [], nextLid := 0, writes := [] }
      (-1) { Mode := .auto, FixedSpeed := 0, Curve := [] } =
      ({ fanCount := 1, curveStates := [], loops := [], nextLid := 0, writes := [] },
       some FanErr.indexPanic) ∧
    FanErr.indexPanic ≠ FanErr.notFound :=
  ⟨rfl, rfl, by decide⟩

/-! ## Claim C1 -/

/-- Claim C1 is violated by the code: after a fan enters Curve mode, a
`SetSettings` call with Auto mode succeeds but does not stop the
sampling loop or remove the curve state, and the next timer tick still
writes to the fan's PWM file (the loop's stop channel is not closed, so
the tick writes whichever way its select would have chosen).  This
theorem evaluates the model at the failing input. -/
theorem curve_to_auto_leaves_loop_running :
    (fanSetSettings { fanCount := 1, curveStates := [], loops := [], nextLid := 0, writes := [] }
      0 { Mode := .curve, FixedSpeed := 0, Curve := [⟨0, 20⟩, ⟨100, 100⟩] }).2 = none ∧
    (fanSetSettings
      (fanSetSettings { fanCount := 1, curveStates := [], loops := [], nextLid := 0, writes := [] }
        0 { Mode := .curve, FixedSpeed := 0, Curve := [⟨0, 20⟩, ⟨100, 100⟩] }).1
      0 { Mode := .auto, FixedSpeed := 0, Curve := [] }).2 = none ∧
    List.lookup 0
      (fanSetSettings
        (fanSetSettings { fanCount := 1, curveStates := [], loops := [], nextLid := 0, writes := [] }
          0 { Mode := .curve, FixedSpeed := 0, Curve := [⟨0, 20⟩, ⟨100, 100⟩] }).1
        0 { Mode := .auto, FixedSpeed := 0, Curve := [] }).1.curveStates = some 0 ∧
    (∃ l ∈ (fanSetSettings
        (fanSetSettings { fanCount := 1, curveStates := [], loops := [], nextLid := 0, writes := [] }
          0 { Mode := .curve, FixedSpeed := 0, Curve := [⟨0, 20⟩, ⟨100, 100⟩] }).1
        0 { Mode := .auto, FixedSpeed := 0, Curve := [] }).1.loops,
      l.isActive = true ∧ l.stopClosed = false) ∧
    (∀ b : Bool, (tickLoop
      (fanSetSettings
        (fanSetSettings { fanCount := 1, curveStates := [], loops := [], nextLid := 0, writes := [] }
          0 { Mode := .curve, FixedSpeed := 0, Curve := [⟨0, 20⟩, ⟨100, 100⟩] }).1
        0 { Mode := .auto, FixedSpeed := 0, Curve := [] }).1 0 50 b).writes =
    (fanSetSettings
      (fanSetSettings { fanCount := 1, curveStates := [], loops := [], nextLid := 0, writes := [] }
        0 { Mode := .curve, FixedSpeed := 0, Curve := [⟨0, 20⟩, ⟨100, 100⟩] }).1
      0 { Mode := .auto, FixedSpeed := 0, Curve := [] }).1.writes ++ [HWWrite.pwm 0 153]) := by
  refine ⟨by decide, by decide, by decide, by decide, by decide⟩

end PicoHWMon
